import Mathlib

/-!
# EcoMarga backend — verification of the spec's claims against the code

Shallow embedding of the EcoMarga waste-bank backend (Express/Node, flat-file
JSON storage).  JavaScript numbers are modelled as `ℚ` (all the arithmetic in
the routes — prices, weights, fees, percentages — is exact on the decimal
inputs involved), JS `null`/`undefined` as `Option`, timestamps (ISO strings
produced by `new Date().toISOString()`) as abstract `Nat` instants supplied by
the caller, and route outcomes as `Except ApiError`.

Sources embedded (paths in the repository):
* `src/routes/submissions.js`   — create / status-update / cancel routes
* `src/unnamed/part_001`        — admin routes (generic PATCH, leaderboard,
                                  month comparison)
* `src/routes/bankSamapah.js`   — directory search, nearby search, reviews
* `src/utils/dataHelpers.js`    — flat-file load/save helpers, generateId
-/

/-- Error taxonomy of spec §7, used as the typed result of route handlers.
HTTP mapping in the code: `validation` = 400 with a validator message,
`unauthorized` = 401, `forbidden` = the 400/403 "not allowed" responses,
`notFound` = 404, `invalidTransition` and `storageError` are the spec's two
remaining categories (the code never actually produces either, which is what
several claims below are about). -/
inductive ApiError where
  | validation
  | unauthorized
  | forbidden
  | notFound
  | invalidTransition
  | storageError
  deriving Repr, DecidableEq

/-- JS `Number.prototype.toFixed(1)` (then `parseFloat`): round to one decimal
place.  ECMA-262 `toFixed` picks, among the two nearest candidates, the larger
`n`, i.e. it rounds half towards `+∞`, which is exactly Mathlib's `round`. -/
def round1 (q : ℚ) : ℚ := (round (q * 10) : ℤ) / 10

/-- JS `toFixed(2)` (then `parseFloat`): round to two decimal places. -/
def round2 (q : ℚ) : ℚ := (round (q * 100) : ℤ) / 100

/-- `generateId` from `src/utils/dataHelpers.js`: `Math.max(...ids, 0) + 1`,
and `1` for an empty collection (which agrees with `foldr max 0 + 1`). -/
def generateId (ids : List Nat) : Nat := ids.foldr max 0 + 1

/-- In-place mutation of the record found by `findIndex`: replace the first
element satisfying `p` (the routes mutate `arr[idx]` and save the array). -/
def replaceFirst (p : α → Bool) (f : α → α) : List α → List α
  | [] => []
  | x :: xs => if p x then f x :: xs else x :: replaceFirst p f xs

/-! ## Pricing configuration (src/routes/submissions.js lines 42-54) -/

/-- `WASTE_PRICING`: waste-type label → price per kg (Rp). -/
def WASTE_PRICING : List (String × ℚ) :=
  [("Botol Plastik", 3000), ("Kardus", 2000), ("Kaleng Aluminium", 8000),
   ("Kertas", 1500), ("Besi", 5000), ("Kaca", 1000), ("Plastik Campuran", 2500)]

/-- `PLATFORM_FEE_PERCENTAGE = 0.10`. -/
def PLATFORM_FEE_PERCENTAGE : ℚ := 1 / 10

/-- Allowed e-wallet providers (`body('ewallet_type').isIn([...])`). -/
def EWALLET_TYPES : List String := ["dana", "ovo", "gopay"]

/-- The status enum accepted by the status routes. -/
def VALID_STATUSES : List String :=
  ["pending", "picked_up", "verified", "completed", "cancelled"]

/-! ## Data model -/

/-- A user record (the fields the submission routes read). `ewallet_accounts`
is the JS object `{dana: handle, ovo: handle, gopay: handle}`, modelled as an
association list; an absent key is an absent pair. -/
structure User where
  id : Nat
  nama : String
  email : String
  role : String
  is_active : Bool
  ewallet_accounts : List (String × String)
  join_date : Nat
  deriving Repr, DecidableEq

/-- One entry of a submission's `status_history` audit trail.  The creation
entry carries no `updated_by` field, hence the `Option`. -/
structure HistoryEntry where
  status : String
  timestamp : Nat
  note : String
  updated_by : Option Nat
  deriving Repr, DecidableEq

/-- A submission record, with every field the three submission routes touch.
`pickup_driver` is stored by the status route from the integer `driver_id`
(the admin route receives the same identifier as a trimmed string; it is
modelled by the integer id, which only changes JS truthiness at the value `0`,
never exercised by any claim). -/
structure Submission where
  id : Nat
  user_id : Nat
  waste_type : String
  estimated_weight : ℚ
  actual_weight : Option ℚ
  price_per_kg : ℚ
  estimated_value : ℚ
  actual_value : Option ℚ
  platform_fee : Option ℚ
  estimated_transfer : ℚ
  actual_transfer : Option ℚ
  ewallet_type : String
  ewallet_account : String
  pickup_address : String
  pickup_schedule : Nat
  notes : String
  images : List String
  status : String
  status_history : List HistoryEntry
  admin_notes : Option String
  pickup_driver : Option Int
  pickup_time : Option Nat
  verification_time : Option Nat
  transfer_time : Option Nat
  created_at : Nat
  updated_at : Nat
  deriving Repr, DecidableEq

/-! ## POST / — create submission (src/routes/submissions.js lines 112-214)

The `isISO8601` format check on `pickup_schedule` is a string-parsing concern
of the validation collaborator; the schedule reaches the model already parsed
as an abstract instant.  Likewise `.trim()` on the address and notes is an
express-validator sanitizer run before the handler, so the modelled strings
are the already-trimmed values. -/

/-- The create route.  Returns the new collection (what `saveSubmissions`
receives) together with the created record (what the 201 body contains). -/
def createSubmission (submissions : List Submission) (user : User)
    (waste_type : String) (estimated_weight : ℚ) (ewallet_type : String)
    (pickup_address : String) (pickup_schedule : Nat) (notes : Option String)
    (images : List String) (now : Nat) :
    Except ApiError (List Submission × Submission) :=
  match WASTE_PRICING.lookup waste_type with
  | none => .error .validation
  | some price_per_kg =>
    if ¬ (1/10 ≤ estimated_weight ∧ estimated_weight ≤ 100) then .error .validation
    else if ¬ (ewallet_type ∈ EWALLET_TYPES) then .error .validation
    else if ¬ (10 ≤ pickup_address.length) then .error .validation
    else if ¬ ((notes.getD "").length ≤ 500) then .error .validation
    else
      match user.ewallet_accounts.lookup ewallet_type with
      | none => .error .validation
      | some account =>
        -- JS truthiness: an empty-string handle is falsy and also rejected
        if account = "" then .error .validation
        else
          let estimated_value := estimated_weight * price_per_kg
          let platform_fee := estimated_value * PLATFORM_FEE_PERCENTAGE
          let estimated_transfer := estimated_value - platform_fee
          let newSubmission : Submission :=
            { id := generateId (submissions.map (·.id))
              user_id := user.id
              waste_type := waste_type
              estimated_weight := estimated_weight
              actual_weight := none
              price_per_kg := price_per_kg
              estimated_value := estimated_value
              actual_value := none
              platform_fee := some platform_fee
              estimated_transfer := estimated_transfer
              actual_transfer := none
              ewallet_type := ewallet_type
              ewallet_account := account
              pickup_address := pickup_address
              pickup_schedule := pickup_schedule
              notes := notes.getD ""
              images := images
              status := "pending"
              status_history :=
                [{ status := "pending", timestamp := now,
                   note := "Submission dibuat", updated_by := none }]
              admin_notes := none
              pickup_driver := none
              pickup_time := none
              verification_time := none
              transfer_time := none
              created_at := now
              updated_at := now }
          .ok (submissions ++ [newSubmission], newSubmission)

/-! ## PATCH /:id/status (src/routes/submissions.js lines 217-294)

The route validates, finds the submission by id (404 when absent), then
unconditionally sets the new status, appends a history entry and runs the
per-status switch.  There is no check on the current status: nothing stops a
transition out of `completed` or `cancelled`. -/

/-- The in-place mutation the status route performs on the found record. -/
def applyStatusUpdate (status : String) (note : Option String)
    (actual_weight : Option ℚ) (driver_id : Option Int) (actor_id now : Nat)
    (sub : Submission) : Submission :=
  let s1 : Submission :=
    { sub with
      status := status, updated_at := now,
      status_history := sub.status_history ++
        [{ status := status, timestamp := now, note := note.getD "",
           updated_by := some actor_id }] }
  if status = "picked_up" then
    { s1 with
      pickup_time := some now,
      pickup_driver :=
        -- `if (driver_id)`: JS truthiness, the integer 0 is falsy
        match driver_id with
        | some d => if d ≠ 0 then some d else s1.pickup_driver
        | none => s1.pickup_driver }
  else if status = "verified" then
    let s2 : Submission := { s1 with verification_time := some now }
    -- `if (actual_weight)`: JS truthiness, the number 0 is falsy
    match actual_weight with
    | some w =>
      if w ≠ 0 then
        let actual_value := w * sub.price_per_kg
        let platform_fee := actual_value * PLATFORM_FEE_PERCENTAGE
        { s2 with
          actual_weight := some w, actual_value := some actual_value,
          platform_fee := some platform_fee,
          actual_transfer := some (actual_value - platform_fee) }
      else s2
    | none => s2
  else if status = "completed" then { s1 with transfer_time := some now }
  else s1

/-- The status route.  Returns the saved collection and the updated record. -/
def updateSubmissionStatus (submissions : List Submission) (id : Nat)
    (status : String) (note : Option String) (actual_weight : Option ℚ)
    (driver_id : Option Int) (actor_id : Nat) (now : Nat) :
    Except ApiError (List Submission × Submission) :=
  if ¬ (status ∈ VALID_STATUSES) then .error .validation
  else if ¬ ((note.getD "").length ≤ 200) then .error .validation
  else if ¬ (∀ w ∈ actual_weight, 0 ≤ w) then .error .validation
  else
    match submissions.find? (fun s => s.id = id) with
    | none => .error .notFound
    | some sub =>
      let updated := applyStatusUpdate status note actual_weight driver_id actor_id now sub
      .ok (replaceFirst (fun s => s.id = id) (fun _ => updated) submissions, updated)

/-! ## PATCH /submissions/:id — admin update (src/unnamed/part_001 lines 366-419)

Every field is optional; `if (status)` and `if (admin_notes)` are JS
truthiness checks on strings (empty string falsy), while the weight check is
`if (actual_weight !== undefined)`, so a supplied weight of `0` does trigger
the financial recomputation.  No restriction on the current status either. -/

/-- The in-place mutation the admin route performs on the found record. -/
def applyAdminPatch (status : Option String) (actual_weight : Option ℚ)
    (admin_notes : Option String) (pickup_driver : Option Int)
    (actor_id now : Nat) (sub : Submission) : Submission :=
  let s1 : Submission :=
    match status with
    | some st => if st ≠ "" then { sub with status := st } else sub
    | none => sub
  let s2 : Submission :=
    match actual_weight with
    | some w =>
      let actual_value := w * s1.price_per_kg
      let platform_fee := actual_value * (1/10)
      { s1 with
        actual_weight := some w, actual_value := some actual_value,
        platform_fee := some platform_fee,
        actual_transfer := some (actual_value - platform_fee) }
    | none => s1
  let s3 : Submission :=
    match admin_notes with
    | some an => if an ≠ "" then { s2 with admin_notes := some an } else s2
    | none => s2
  let s4 : Submission :=
    match pickup_driver with
    | some d => if d ≠ 0 then { s3 with pickup_driver := some d } else s3
    | none => s3
  let s5 : Submission := { s4 with updated_at := now }
  match status with
  | some st =>
    if st ≠ "" then
      let s6a : Submission :=
        { s5 with
          status_history := s5.status_history ++
          [{ status := st, timestamp := now,
             note := (admin_notes.filter (· ≠ "")).getD "Status diubah oleh admin",
             updated_by := some actor_id }] }
      if st = "picked_up" then { s6a with pickup_time := some now }
      else if st = "verified" then { s6a with verification_time := some now }
      else if st = "completed" then { s6a with transfer_time := some now }
      else s6a
    else s5
  | none => s5

def adminPatchSubmission (submissions : List Submission) (id : Nat)
    (status : Option String) (actual_weight : Option ℚ)
    (admin_notes : Option String) (pickup_driver : Option Int)
    (actor_id : Nat) (now : Nat) :
    Except ApiError (List Submission × Submission) :=
  if ¬ (∀ st ∈ status, st ∈ VALID_STATUSES) then .error .validation
  else if ¬ (∀ w ∈ actual_weight, 0 ≤ w) then .error .validation
  else if ¬ ((admin_notes.getD "").length ≤ 500) then .error .validation
  else
    match submissions.find? (fun s => s.id = id) with
    | none => .error .notFound
    | some sub =>
      let s6 := applyAdminPatch status actual_weight admin_notes pickup_driver
        actor_id now sub
      .ok (replaceFirst (fun s => s.id = id) (fun _ => s6) submissions, s6)

/-! ## PATCH /:id/cancel (src/routes/submissions.js lines 297-342)

The lookup is scoped to the acting user (`sub.id === id && sub.user_id ===
req.user.id`), so a foreign submission yields 404, not 403; a non-pending own
submission yields the 400 "cannot cancel" response, which is the spec's
`ForbiddenError` category. -/

def cancelSubmission (submissions : List Submission) (id actor_id : Nat)
    (now : Nat) : Except ApiError (List Submission × Submission) :=
  match submissions.find? (fun s => s.id = id && s.user_id = actor_id) with
  | none => .error .notFound
  | some sub =>
    if sub.status ≠ "pending" then .error .forbidden
    else
      let updated : Submission :=
        { sub with
          status := "cancelled", updated_at := now,
          status_history := sub.status_history ++
            [{ status := "cancelled", timestamp := now,
               note := "Dibatalkan oleh pengguna", updated_by := some actor_id }] }
      .ok (replaceFirst (fun s => s.id = id && s.user_id = actor_id)
             (fun _ => updated) submissions, updated)

/-! ## Reviews (src/routes/bankSamapah.js lines 336-415)

`BankSampah.reviews` is `Option (List Review)` because the seeded default
records in `src/utils/dataHelpers.js` carry `rating` and `total_reviews`
(127, 89, 203) but no `reviews` field at all; the route initialises the array
on first use. -/

structure Review where
  id : Nat
  user_id : Nat
  user_name : String
  rating : Int
  comment : String
  created_at : Nat
  updated_at : Nat
  deriving Repr, DecidableEq

structure BankSampah where
  id : Nat
  nama : String
  alamat : String
  kota : String
  provinsi : String
  jenis_sampah_diterima : List String
  rating : ℚ
  total_reviews : Nat
  is_active : Bool
  is_partner : Bool
  deskripsi : String
  reviews : Option (List Review)
  updated_at : Nat
  deriving Repr, DecidableEq

/-- The mutation POST /:id/review performs on the found point: returns the
updated point, the new or replaced review, and the recomputed rating. -/
def applyReview (uid : Nat) (uname : String) (rating : Int)
    (comment : Option String) (now : Nat) (bs : BankSampah) :
    BankSampah × Review × ℚ :=
  let reviews := bs.reviews.getD []
  let hasExisting := reviews.any (fun r => r.user_id = uid)
  let newId :=
    match reviews.find? (fun r => r.user_id = uid) with
    | some existing => existing.id
    | none => generateId (reviews.map (·.id))
  let newReview : Review :=
    { id := newId, user_id := uid, user_name := uname, rating := rating,
      comment := comment.getD "", created_at := now, updated_at := now }
  let reviews2 :=
    if hasExisting then
      replaceFirst (fun r => r.user_id = uid) (fun _ => newReview) reviews
    else reviews ++ [newReview]
  let total2 := if hasExisting then bs.total_reviews else bs.total_reviews + 1
  let newRating :=
    round1 (((reviews2.map (fun r => (r.rating : ℚ))).sum) / (reviews2.length : ℚ))
  ({ bs with
     reviews := some reviews2, total_reviews := total2,
     rating := newRating, updated_at := now },
   newReview, newRating)

/-- POST /:id/review.  `actor = (id, nama)` from the identity collaborator
(`none` = unauthenticated, 401).  Returns the saved collection, the new or
updated review, and the recomputed point rating (the response body's
`new_rating`). -/
def submitReview (points : List BankSampah) (pid : Nat)
    (actor : Option (Nat × String)) (rating : Int) (comment : Option String)
    (now : Nat) : Except ApiError (List BankSampah × Review × ℚ) :=
  match actor with
  | none => .error .unauthorized
  | some (uid, uname) =>
    if ¬ (1 ≤ rating ∧ rating ≤ 5) then .error .validation
    else if ¬ ((comment.getD "").length ≤ 500) then .error .validation
    else
      match points.find? (fun bs => bs.id = pid && bs.is_active) with
      | none => .error .notFound
      | some bs =>
        let result := applyReview uid uname rating comment now bs
        .ok (replaceFirst (fun p => p.id = pid && p.is_active)
               (fun _ => result.1) points,
             result.2.1, result.2.2)

/-! ## Directory search (src/routes/bankSamapah.js lines 24-125)

`calculateDistance` is the haversine formula over `Math.sin`/`cos`/`atan2`;
a transcendental real-valued function with no executable rational embedding.
The search pipeline is therefore parametric in the distance function
`dist : BankSampah → ℚ` (the haversine distance from the query point to the
record's coordinates); every theorem below holds for all such functions, so
nothing depends on this abstraction.

In this route the code attaches `distance:
calculateDistance(...).toFixed(2)` — already rounded to 2 decimals — and both
the radius filter (`parseFloat(bs.distance) <= maxRadius`) and the distance
sort comparator (`parseFloat(a.distance) - parseFloat(b.distance)`) then
operate on that rounded value. -/

inductive SortBy where
  | rating
  | distance
  | nama
  deriving Repr, DecidableEq

/-- The `search` free-text filter: case-insensitive containment in
name/address/description. -/
def matchesSearch (s : String) (bs : BankSampah) : Bool :=
  let sl := s.toLower
  (bs.nama.toLower.splitOn sl).length > 1 ||
  (bs.alamat.toLower.splitOn sl).length > 1 ||
  (bs.deskripsi.toLower.splitOn sl).length > 1

/-- The text/city/waste-type filter stages (each optional, AND-combined),
applied after the unconditional `is_active` filter. -/
def dirFiltered (search kota jenis : Option String) (l : List BankSampah) :
    List BankSampah :=
  let l1 : List BankSampah := l.filter (·.is_active)
  let l2 : List BankSampah := match search with
    | some s => if s ≠ "" then l1.filter (matchesSearch s) else l1
    | none => l1
  let l3 : List BankSampah := match kota with
    | some k => if k ≠ "" then l2.filter (fun bs => bs.kota.toLower = k.toLower) else l2
    | none => l2
  match jenis with
  | some j => if j ≠ "" then l3.filter (fun bs => j ∈ bs.jenis_sampah_diterima) else l3
  | none => l3

/-- The location stage of GET / — the code attaches
`distance: calculateDistance(...).toFixed(2)`, already rounded to two
decimals, and the radius filter `parseFloat(bs.distance) <= maxRadius`
operates on that rounded value. -/
def dirLocStage (dist : BankSampah → ℚ) (radius : ℚ) (l : List BankSampah) :
    List (BankSampah × ℚ) :=
  (l.map (fun bs => (bs, round2 (dist bs)))).filter (fun p => p.2 ≤ radius)

/-- The sort stage with coordinates present; the distance comparator
`parseFloat(a.distance) - parseFloat(b.distance)` also reads the rounded
attached value.  JS `Array.prototype.sort` is stable (ECMA-262 2019) and a
stable sort's output is uniquely determined by comparator and input order;
`List.mergeSort` is that stable sort.  `nameLe` is the `localeCompare`
collation (a collaborator). -/
def dirSortLoc (sortBy : SortBy) (nameLe : String → String → Bool)
    (w : List (BankSampah × ℚ)) : List (BankSampah × ℚ) :=
  match sortBy with
  | .distance => w.mergeSort (fun a b => decide (a.2 ≤ b.2))
  | .nama => w.mergeSort (fun a b => nameLe a.1.nama b.1.nama)
  | .rating => w.mergeSort (fun a b => decide (b.1.rating ≤ a.1.rating))

/-- The sort stage without coordinates: sorting by `distance` silently falls
back to no sort at all. -/
def dirSortNoLoc (sortBy : SortBy) (nameLe : String → String → Bool)
    (l : List BankSampah) : List BankSampah :=
  match sortBy with
  | .distance => l
  | .nama => l.mergeSort (fun a b => nameLe a.nama b.nama)
  | .rating => l.mergeSort (fun a b => decide (b.rating ≤ a.rating))

/-- GET / — filter, (optional) location stage, sort, paginate.  Returns the
returned page (each item with its displayed distance) and the pre-pagination
total. -/
def directorySearch (dist : BankSampah → ℚ) (useLocation : Bool) (radius : ℚ)
    (search kota jenis : Option String) (sortBy : SortBy)
    (nameLe : String → String → Bool) (page limit : Nat)
    (l : List BankSampah) : List (BankSampah × Option ℚ) × Nat :=
  let l4 := dirFiltered search kota jenis l
  if useLocation then
    let sorted := dirSortLoc sortBy nameLe (dirLocStage dist radius l4)
    (((sorted.map (fun p => (p.1, some p.2))).drop ((page - 1) * limit)).take limit,
     sorted.length)
  else
    let sorted := dirSortNoLoc sortBy nameLe l4
    (((sorted.map (fun bs => (bs, (none : Option ℚ)))).drop ((page - 1) * limit)).take limit,
     sorted.length)

/-- The location and sort stages as the spec §4.2 words them: "the unrounded
value is used for the radius filter and the sort comparator", distances
"rounded to 2 decimal places for display".  Used only to compare against the
code's pipeline. -/
def dirLocStageSpec (dist : BankSampah → ℚ) (radius : ℚ)
    (l : List BankSampah) : List (BankSampah × ℚ) :=
  (l.map (fun bs => (bs, dist bs))).filter (fun p => p.2 ≤ radius)

def directorySearchSpec (dist : BankSampah → ℚ) (useLocation : Bool)
    (radius : ℚ) (search kota jenis : Option String) (sortBy : SortBy)
    (nameLe : String → String → Bool) (page limit : Nat)
    (l : List BankSampah) : List (BankSampah × Option ℚ) × Nat :=
  let l4 := dirFiltered search kota jenis l
  if useLocation then
    let sorted := dirSortLoc sortBy nameLe (dirLocStageSpec dist radius l4)
    (((sorted.map (fun p => (p.1, some (round2 p.2)))).drop ((page - 1) * limit)).take limit,
     sorted.length)
  else
    let sorted := dirSortNoLoc sortBy nameLe l4
    (((sorted.map (fun bs => (bs, (none : Option ℚ)))).drop ((page - 1) * limit)).take limit,
     sorted.length)

/-! ## GET /nearby/:latitude/:longitude (src/routes/bankSamapah.js 168-212)

Here the unrounded distance is attached, filtered and sorted on, and only the
final display map applies `toFixed(2)`. -/

/-- The sorted, radius-filtered list before display rounding. -/
def nearbySorted (dist : BankSampah → ℚ) (radius : ℚ) (l : List BankSampah) :
    List (BankSampah × ℚ) :=
  (((l.filter (·.is_active)).map (fun bs => (bs, dist bs))).filter
      (fun p => p.2 ≤ radius)).mergeSort (fun a b => decide (a.2 ≤ b.2))

/-- GET /nearby: slice the top `limit` and round the displayed distance. -/
def nearbySearch (dist : BankSampah → ℚ) (radius : ℚ) (limit : Nat)
    (l : List BankSampah) : List (BankSampah × ℚ) :=
  ((nearbySorted dist radius l).take limit).map (fun p => (p.1, round2 p.2))

/-! ## Leaderboard (src/unnamed/part_001 lines 788-864)

`userStats` maps the active-user list in order; the JS `sort` with comparator
`b.metric - a.metric` is the stable descending sort, modelled by
`List.mergeSort` with `le a b := metric b ≤ metric a`. -/

structure UserStats where
  id : Nat
  nama : String
  total_weight : ℚ
  total_earnings : ℚ
  total_submissions : Nat
  co2_reduced : ℚ
  trees_saved : ℤ
  deriving Repr, DecidableEq

/-- Per-user aggregates over that user's completed submissions
(`(s.actual_weight || 0)` = `Option.getD 0`: `null` and `0` both contribute
nothing). -/
def userStatsOf (submissions : List Submission) (u : User) : UserStats :=
  let userSubmissions :=
    submissions.filter (fun s => s.user_id = u.id && s.status = "completed")
  let w := (userSubmissions.map (fun s => s.actual_weight.getD 0)).sum
  { id := u.id
    nama := u.nama
    total_weight := w
    total_earnings := (userSubmissions.map (fun s => s.actual_transfer.getD 0)).sum
    total_submissions := userSubmissions.length
    co2_reduced := w * (5/2)
    trees_saved := ⌊w / 20⌋ }

/-- The leaderboard metric selected by the `type` query parameter. -/
inductive LeaderboardType where
  | weight
  | earnings
  | submissions
  | environmental
  deriving Repr, DecidableEq

def metricOf : LeaderboardType → UserStats → ℚ
  | .weight, st => st.total_weight
  | .earnings, st => st.total_earnings
  | .submissions, st => (st.total_submissions : ℚ)
  | .environmental, st => st.co2_reduced

/-- `users.filter(u => u.role === 'user' && u.is_active)`. -/
def activeUsers (users : List User) : List User :=
  users.filter (fun u => u.role = "user" && u.is_active)

/-- The per-user stats list, in input collection order. -/
def leaderboardStats (users : List User) (submissions : List Submission) :
    List UserStats :=
  (activeUsers users).map (userStatsOf submissions)

/-- The full descending-sorted list (before `slice(0, limit)`). -/
def leaderboardSorted (t : LeaderboardType) (users : List User)
    (submissions : List Submission) : List UserStats :=
  (leaderboardStats users submissions).mergeSort
    (fun a b => decide (metricOf t b ≤ metricOf t a))

/-- The returned top slice with 1-based ranks (`rank: index + 1`). -/
def leaderboardTop (t : LeaderboardType) (limit : Nat) (users : List User)
    (submissions : List Submission) : List (UserStats × Nat) :=
  ((leaderboardSorted t users submissions).take limit).enum.map
    (fun p => (p.2, p.1 + 1))

/-- `current_user_rank`: `findIndex` on the full sorted list (not the slice),
so the requester's rank is found even outside the returned top `limit`. -/
def currentUserRank (t : LeaderboardType) (users : List User)
    (submissions : List Submission) (reqUser : Option Nat) :
    Option (UserStats × Nat) :=
  match reqUser with
  | none => none
  | some uid =>
    ((leaderboardSorted t users submissions).enum.find?
        (fun p => p.2.id = uid)).map (fun p => (p.2, p.1 + 1))

/-! ## Month-over-month comparison (src/unnamed/part_001 lines 912-993) -/

structure MonthStats where
  total_submissions : Nat
  completed_submissions : Nat
  total_weight : ℚ
  total_earnings : ℚ
  deriving Repr, DecidableEq

/-- JS truthiness of an optional number: present and nonzero. -/
def truthyQ : Option ℚ → Bool
  | some q => q ≠ 0
  | none => false

/-- `calculateStats` over one month's submission list. -/
def calculateStats (l : List Submission) : MonthStats :=
  { total_submissions := l.length
    completed_submissions := (l.filter (fun s => s.status = "completed")).length
    total_weight :=
      ((l.filter (fun s => truthyQ s.actual_weight)).map
        (fun s => s.actual_weight.getD 0)).sum
    total_earnings :=
      ((l.filter (fun s => s.status = "completed" && truthyQ s.actual_transfer)).map
        (fun s => s.actual_transfer.getD 0)).sum }

/-- `calculateChange`: the `previous === 0` convention returns a plain number,
every other case returns `((current-previous)/previous*100).toFixed(1)`. -/
def calculateChange (current previous : ℚ) : ℚ :=
  if previous = 0 then (if current > 0 then 100 else 0)
  else round1 ((current - previous) / previous * 100)

/-- The four `changes` fields of the GET /comparison response, computed from
the current-month and previous-month buckets of the submission collection
(`monthStart` = first instant of the current calendar month, `prevStart` =
first instant of the preceding one). -/
def comparisonChanges (submissions : List Submission) (prevStart monthStart : Nat) :
    ℚ × ℚ × ℚ × ℚ :=
  let current := calculateStats (submissions.filter (fun s => monthStart ≤ s.created_at))
  let previous := calculateStats (submissions.filter
    (fun s => prevStart ≤ s.created_at && s.created_at < monthStart))
  (calculateChange current.total_submissions previous.total_submissions,
   calculateChange current.completed_submissions previous.completed_submissions,
   calculateChange current.total_weight previous.total_weight,
   calculateChange current.total_earnings previous.total_earnings)

/-! ## Flat-file storage (src/utils/dataHelpers.js lines 22-46)

The `fs` collaborator's outcome is an explicit parameter: `some data` for a
successful read+parse, `none` for a missing file or a thrown error — the
`catch` block logs and returns `defaultData` in both cases.  `saveJsonFile`
catches a write failure and returns `false`; no caller in the repository
inspects that return value. -/

def loadJsonFile (readResult : Option α) (defaultData : α) : α :=
  match readResult with
  | some data => data
  | none => defaultData

def saveJsonFile (writeSucceeded : Bool) : Bool :=
  writeSucceeded

/-- POST / as actually wired to storage: load (failure → default `[]`), run
the handler, call `saveSubmissions` and ignore its result, answer 201 with
the record.  `loadResult`/`saveOutcome` are the storage collaborator's
outcomes for this request. -/
def createSubmissionRoute (loadResult : Option (List Submission))
    (saveOutcome : Bool) (user : User) (waste_type : String)
    (estimated_weight : ℚ) (ewallet_type : String) (pickup_address : String)
    (pickup_schedule : Nat) (notes : Option String) (images : List String)
    (now : Nat) : Except ApiError Submission :=
  match createSubmission (loadJsonFile loadResult []) user waste_type
      estimated_weight ewallet_type pickup_address pickup_schedule notes
      images now with
  | .ok (updated, newSubmission) =>
    let _saved := saveJsonFile saveOutcome
    -- the route never reads `_saved`: it answers 201 regardless
    let _collection := updated
    .ok newSubmission
  | .error e => .error e

/-! ## Concrete fixtures used by witnesses and counterexamples -/

instance {ε α : Type} [DecidableEq ε] [DecidableEq α] : DecidableEq (Except ε α)
  | .ok a, .ok b =>
    if h : a = b then .isTrue (by rw [h]) else .isFalse (by simp [h])
  | .ok _, .error _ => .isFalse (by simp)
  | .error _, .ok _ => .isFalse (by simp)
  | .error a, .error b =>
    if h : a = b then .isTrue (by rw [h]) else .isFalse (by simp [h])

def addrA : String := "Jl. Pahlawan No. 123"

def userA : User :=
  { id := 7, nama := "Andi", email := "andi@example.com", role := "user",
    is_active := true, ewallet_accounts := [("dana", "081234567890")],
    join_date := 0 }

/-- The record `POST /` creates for `userA`, "Botol Plastik", 2 kg, dana,
with `now = 100` on an empty collection. -/
def subBotol : Submission :=
  { id := 1, user_id := 7, waste_type := "Botol Plastik", estimated_weight := 2,
    actual_weight := none, price_per_kg := 3000, estimated_value := 6000,
    actual_value := none, platform_fee := some 600, estimated_transfer := 5400,
    actual_transfer := none, ewallet_type := "dana",
    ewallet_account := "081234567890", pickup_address := addrA,
    pickup_schedule := 5, notes := "", images := [], status := "pending",
    status_history := [{ status := "pending", timestamp := 100,
                         note := "Submission dibuat", updated_by := none }],
    admin_notes := none, pickup_driver := none, pickup_time := none,
    verification_time := none, transfer_time := none,
    created_at := 100, updated_at := 100 }

/-- The record `POST /` creates for `userA`, "Kertas" (1500/kg), 2 kg. -/
def subKertas : Submission :=
  { subBotol with
    waste_type := "Kertas", price_per_kg := 1500,
    estimated_value := 3000, platform_fee := some 300,
    estimated_transfer := 2700 }

/-- `subKertas` after `PATCH /1/status` to `verified` with
`actual_weight = 0.1111` by actor 9 at instant 200. -/
def subKertasV : Submission :=
  { subKertas with
    status := "verified", updated_at := 200,
    status_history := subKertas.status_history ++
      [{ status := "verified", timestamp := 200, note := "", updated_by := some 9 }],
    verification_time := some 200,
    actual_weight := some (1111/10000), actual_value := some (3333/20),
    platform_fee := some (3333/200), actual_transfer := some (29997/200) }

/-- `subBotol` already in the terminal state `completed`. -/
def subCompleted : Submission := { subBotol with status := "completed" }

/-- What the status route hands back when asked to move `subCompleted` back
to `pending` (it happily does). -/
def subCompletedP : Submission :=
  { subCompleted with
    status := "pending", updated_at := 300,
    status_history := subCompleted.status_history ++
      [{ status := "pending", timestamp := 300, note := "", updated_by := some 9 }] }

/-- `subBotol` already in the terminal state `cancelled`. -/
def subCancelled : Submission := { subBotol with status := "cancelled" }

/-- The admin PATCH moving `subCancelled` to `picked_up` (it also succeeds). -/
def subCancelledPU : Submission :=
  { subCancelled with
    status := "picked_up", updated_at := 300,
    status_history := subCancelled.status_history ++
      [{ status := "picked_up", timestamp := 300,
         note := "Status diubah oleh admin", updated_by := some 9 }],
    pickup_time := some 300 }

/-- The admin PATCH on `subBotol` with `status = verified` and
`actual_weight = 0`: the `!== undefined` check fires and zeroes the three
financial fields. -/
def subBotolA0 : Submission :=
  { subBotol with
    status := "verified", updated_at := 300,
    status_history := subBotol.status_history ++
      [{ status := "verified", timestamp := 300,
         note := "Status diubah oleh admin", updated_by := some 9 }],
    verification_time := some 300,
    actual_weight := some 0, actual_value := some 0,
    platform_fee := some 0, actual_transfer := some 0 }

/-- The status route on `subBotol` with `status = verified` and
`actual_weight = 0`: the truthiness check treats 0 as absent, financial
fields untouched. -/
def subBotolV0 : Submission :=
  { subBotol with
    status := "verified", updated_at := 300,
    status_history := subBotol.status_history ++
      [{ status := "verified", timestamp := 300, note := "", updated_by := some 9 }],
    verification_time := some 300 }

/-- Seeded waste-bank point 1 from `src/utils/dataHelpers.js`: carries
`total_reviews = 127` and **no** `reviews` collection. -/
def bsSeed : BankSampah :=
  { id := 1, nama := "Bank Sampah Bersih Sejahtera",
    alamat := "Jl. Pahlawan No. 123, Semarang Tengah", kota := "Semarang",
    provinsi := "Jawa Tengah",
    jenis_sampah_diterima :=
      ["Botol Plastik", "Kardus", "Kaleng Aluminium", "Kertas", "Kaca"],
    rating := 9/2, total_reviews := 127, is_active := true, is_partner := true,
    deskripsi := "Bank sampah terpercaya dengan layanan jemput door-to-door",
    reviews := none, updated_at := 0 }

/-- The review user 7 submits on `bsSeed` (rating 3, instant 50). -/
def revSeed : Review :=
  { id := 1, user_id := 7, user_name := "Andi", rating := 3, comment := "",
    created_at := 50, updated_at := 50 }

/-- `bsSeed` after that first review: one embedded review, but
`total_reviews` bumped from the seeded 127 to 128. -/
def bsSeed2 : BankSampah :=
  { bsSeed with
    reviews := some [revSeed], total_reviews := 128, rating := 3,
    updated_at := 50 }

/-- A consistent point with a single rating-5 review by user 7. -/
def bsW : BankSampah :=
  { bsSeed with
    reviews := some [{ id := 1, user_id := 7, user_name := "Andi", rating := 5,
                       comment := "", created_at := 10, updated_at := 10 }],
    total_reviews := 1, rating := 5 }

/-- `bsW` after user 7 re-reviews with rating 3: replaced in place. -/
def bsW2 : BankSampah :=
  { bsW with
    reviews := some [revSeed], total_reviews := 1, rating := 3,
    updated_at := 50 }

/-- A distance function putting every point 10.004 km away. -/
def distX : BankSampah → ℚ := fun _ => 2501/250

/-- Users for the leaderboard fixtures (ids 3, 1, 2; all active). -/
def uFix (i : Nat) : User := { userA with id := i }

/-- A completed-submission fixture for the aggregators. -/
def subFor (id uid : Nat) (st : String) (aw tr : Option ℚ) (created : Nat) :
    Submission :=
  { subBotol with
    id := id, user_id := uid, status := st, actual_weight := aw,
    actual_transfer := tr, created_at := created }

/-- Leaderboard fixture: user 3 has 9 kg, users 1 and 2 tie at 5 kg. -/
def usersFix : List User := [uFix 3, uFix 1, uFix 2]

def subsFix : List Submission :=
  [subFor 31 3 "completed" (some 9) (some 100) 0,
   subFor 11 1 "completed" (some 5) (some 60) 0,
   subFor 21 2 "completed" (some 5) (some 50) 0]

/-- Comparison fixture: three submissions in the previous month
(`created_at` 10, 11, 12), one in the current month (20). -/
def subsC8 : List Submission :=
  [subFor 1 7 "pending" none none 10, subFor 2 7 "pending" none none 11,
   subFor 3 7 "pending" none none 12, subFor 4 7 "pending" none none 20]

/-- `subBotol` after `PATCH /1/status` to `verified` with
`actual_weight = 1.8` by actor 9 at instant 200 (the spec §8 scenario:
5400 / 540 / 4860). -/
def subBotolV18 : Submission :=
  { subBotol with
    status := "verified", updated_at := 200,
    status_history := subBotol.status_history ++
      [{ status := "verified", timestamp := 200, note := "", updated_by := some 9 }],
    verification_time := some 200,
    actual_weight := some (9/5), actual_value := some 5400,
    platform_fee := some 540, actual_transfer := some 4860 }

/-- The per-user stats of `usersFix`/`subsFix`, in input order. -/
def statsFix : List UserStats :=
  [{ id := 3, nama := "Andi", total_weight := 9, total_earnings := 100,
     total_submissions := 1, co2_reduced := 45/2, trees_saved := 0 },
   { id := 1, nama := "Andi", total_weight := 5, total_earnings := 60,
     total_submissions := 1, co2_reduced := 25/2, trees_saved := 0 },
   { id := 2, nama := "Andi", total_weight := 5, total_earnings := 50,
     total_submissions := 1, co2_reduced := 25/2, trees_saved := 0 }]

/-! ## Invariant predicates used by the claims -/

/-- The (corrected) financial invariant: `actual_value` and `actual_transfer`
are `null` until `actual_weight` is set; once it is set, the three derived
fields are computed from it and the snapshotted `price_per_kg` with the exact
10 % fee. -/
def finConsistent (s : Submission) : Prop :=
  match s.actual_weight with
  | none => s.actual_value = none ∧ s.actual_transfer = none
  | some w =>
    s.actual_value = some (w * s.price_per_kg) ∧
    s.platform_fee = some (w * s.price_per_kg * (1/10)) ∧
    s.actual_transfer =
      some (w * s.price_per_kg - w * s.price_per_kg * (1/10))

/-- What `submitReview` guarantees for the updated point `bs2`, relative to
the pre-state point `bs` and the acting user `uid`; `rev` is the review the
route returns. -/
def ReviewOutcome (uid : Nat) (rev : Review) (bs bs2 : BankSampah) : Prop :=
  let revs := bs.reviews.getD []
  let revs2 := bs2.reviews.getD []
  bs2.rating =
      round1 (((revs2.map (fun r => (r.rating : ℚ))).sum) / (revs2.length : ℚ))
  ∧ (bs.total_reviews = revs.length → bs2.total_reviews = revs2.length)
  ∧ (revs.countP (fun r => r.user_id = uid) ≤ 1 →
       revs2.countP (fun r => r.user_id = uid) = 1)
  ∧ (∀ r0, revs.find? (fun r => r.user_id = uid) = some r0 →
       revs2.length = revs.length ∧ rev.id = r0.id)
  ∧ (revs.find? (fun r => r.user_id = uid) = none →
       revs2 = revs ++ [rev] ∧ bs2.total_reviews = bs.total_reviews + 1)

/-! # Lemmas and claim theorems -/

theorem mem_replaceFirst {α : Type} {p : α → Bool} {f : α → α} {l : List α}
    {x : α} (h : x ∈ replaceFirst p f l) : x ∈ l ∨ ∃ y ∈ l, p y ∧ x = f y := by
  induction l with
  | nil => simp [replaceFirst] at h
  | cons a as ih =>
    simp only [replaceFirst] at h
    by_cases hp : p a
    · simp only [hp, if_true] at h
      rcases List.mem_cons.mp h with h | h
      · exact Or.inr ⟨a, by simp, hp, h⟩
      · exact Or.inl (List.mem_cons_of_mem _ h)
    · simp only [hp, if_false] at h
      rcases List.mem_cons.mp h with h | h
      · exact Or.inl (by simp [h])
      · rcases ih h with h1 | ⟨y, hy, hpy, hxy⟩
        · exact Or.inl (List.mem_cons_of_mem _ h1)
        · exact Or.inr ⟨y, List.mem_cons_of_mem _ hy, hpy, hxy⟩

theorem length_replaceFirst {α : Type} (p : α → Bool) (f : α → α) (l : List α) :
    (replaceFirst p f l).length = l.length := by
  induction l with
  | nil => rfl
  | cons a as ih =>
    simp only [replaceFirst]
    by_cases hp : p a <;> simp [hp, ih]

theorem countP_replaceFirst {α : Type} {p : α → Bool} {x : α} (hx : p x)
    (l : List α) :
    (replaceFirst p (fun _ => x) l).countP p = l.countP p := by
  induction l with
  | nil => rfl
  | cons a as ih =>
    simp only [replaceFirst]
    by_cases hp : p a
    · simp [hp, List.countP_cons, hx]
    · simp [hp, List.countP_cons, ih]

/-- `toFixed(2)` changes a value by at most half a hundredth. -/
theorem le_round2_add (q : ℚ) : q ≤ round2 q + 1/200 := by
  have h := (abs_le.mp (abs_sub_round (q * 100))).2
  unfold round2
  linarith

/-! ## C5 — create: derived fields and the three validation preconditions -/

/-- C5: with a known waste type, an estimated weight in [0.1, 100] and a
registered (non-empty) e-wallet handle — together with the remaining route
validators (address length, notes length, known provider) — `POST /` returns
a submission whose `price_per_kg` is the pricing-table snapshot,
`estimated_value = weight * price`, `platform_fee = estimated_value * 0.10`,
`estimated_transfer = estimated_value - platform_fee`, status `pending`, and
a one-entry status history, appended to the stored collection.  If any of the
three named preconditions fails, the route answers `ValidationError` and the
collection is not extended. -/
theorem create_submission_contract :
    (∀ (subs : List Submission) (user : User) (wt : String) (w : ℚ)
       (ewt addr : String) (sched : Nat) (notes : Option String)
       (imgs : List String) (now : Nat) (price : ℚ) (acc : String),
       WASTE_PRICING.lookup wt = some price →
       1/10 ≤ w → w ≤ 100 →
       ewt ∈ EWALLET_TYPES →
       10 ≤ addr.length →
       (notes.getD "").length ≤ 500 →
       user.ewallet_accounts.lookup ewt = some acc → acc ≠ "" →
       ∃ sub, createSubmission subs user wt w ewt addr sched notes imgs now
           = .ok (subs ++ [sub], sub)
         ∧ sub.price_per_kg = price
         ∧ sub.estimated_value = w * price
         ∧ sub.platform_fee = some (w * price * (1/10))
         ∧ sub.estimated_transfer = w * price - w * price * (1/10)
         ∧ sub.status = "pending"
         ∧ sub.status_history.length = 1)
  ∧ (∀ (subs : List Submission) (user : User) (wt : String) (w : ℚ)
       (ewt addr : String) (sched : Nat) (notes : Option String)
       (imgs : List String) (now : Nat),
       (WASTE_PRICING.lookup wt = none ∨ ¬ (1/10 ≤ w ∧ w ≤ 100) ∨
         (∀ acc, user.ewallet_accounts.lookup ewt = some acc → acc = "")) →
       createSubmission subs user wt w ewt addr sched notes imgs now
         = .error .validation) := by
  constructor
  · intro subs user wt w ewt addr sched notes imgs now price acc
      hp hw1 hw2 he ha hn hacc hne
    unfold createSubmission
    simp only [hp, hacc]
    rw [if_neg (not_not_intro ⟨hw1, hw2⟩), if_neg (not_not_intro he),
        if_neg (not_not_intro ha), if_neg (not_not_intro hn), if_neg hne]
    exact ⟨_, rfl, rfl, rfl, rfl, rfl, rfl, rfl⟩
  · intro subs user wt w ewt addr sched notes imgs now h
    unfold createSubmission
    rcases h with h | h | h
    · rw [h]
    · cases hl : WASTE_PRICING.lookup wt with
      | none => rfl
      | some p => exact if_pos h
    · cases hl : WASTE_PRICING.lookup wt with
      | none => rfl
      | some p =>
        simp only []
        split
        · rfl
        · split
          · rfl
          · split
            · rfl
            · split
              · rfl
              · cases ha : user.ewallet_accounts.lookup ewt with
                | none => rfl
                | some acc => exact if_pos (h acc ha)

/-- C5 witness: the spec §8 scenario — "Botol Plastik" (3000/kg) at 2.0 kg
gives 6000 / 600 / 5400, status `pending`, single history entry. -/
theorem create_submission_contract_witness :
    (WASTE_PRICING.lookup "Botol Plastik" = some 3000 ∧ (1/10 : ℚ) ≤ 2 ∧
      (2:ℚ) ≤ 100 ∧ "dana" ∈ EWALLET_TYPES ∧ 10 ≤ addrA.length ∧
      userA.ewallet_accounts.lookup "dana" = some "081234567890")
  ∧ (∃ sub, createSubmission [] userA "Botol Plastik" 2 "dana" addrA 5 none [] 100
        = .ok ([] ++ [sub], sub)
      ∧ sub.price_per_kg = 3000
      ∧ sub.estimated_value = 2 * 3000
      ∧ sub.platform_fee = some (2 * 3000 * (1/10))
      ∧ sub.estimated_transfer = 2 * 3000 - 2 * 3000 * (1/10)
      ∧ sub.status = "pending"
      ∧ sub.status_history.length = 1) :=
  ⟨⟨by decide, by norm_num, by norm_num, by decide, by decide, by decide⟩,
   create_submission_contract.1 [] userA "Botol Plastik" 2 "dana" addrA 5
     none [] 100 3000 "081234567890" (by decide) (by norm_num) (by norm_num)
     (by decide) (by decide) (by decide) (by decide) (by decide)⟩

/-! ## C4 — cancel: success condition and error kinds -/

/-- C4 (amended): `PATCH /:id/cancel` succeeds iff the lookup scoped to the
acting user finds the submission (`s.id = id` and `s.user_id = actor`) and its
status is exactly `pending`.  A submission that is not the actor's own is
reported as `NotFoundError` (the lookup is owner-scoped), not
`ForbiddenError`; an own non-pending submission is the `ForbiddenError`
response.  On success the status becomes `cancelled`, exactly one history
entry is appended and the other fields survive unchanged. -/
theorem cancel_contract :
    (∀ (subs : List Submission) (id actor now : Nat),
       (∃ r, cancelSubmission subs id actor now = .ok r) ↔
         ∃ s, subs.find? (fun x => x.id = id && x.user_id = actor) = some s ∧
           s.status = "pending")
  ∧ (∀ (subs : List Submission) (id actor now : Nat),
       subs.find? (fun x => x.id = id && x.user_id = actor) = none →
       cancelSubmission subs id actor now = .error .notFound)
  ∧ (∀ (subs : List Submission) (id actor now : Nat) (s : Submission),
       subs.find? (fun x => x.id = id && x.user_id = actor) = some s →
       s.status ≠ "pending" →
       cancelSubmission subs id actor now = .error .forbidden)
  ∧ (∀ (subs : List Submission) (id actor now : Nat) (s : Submission),
       subs.find? (fun x => x.id = id && x.user_id = actor) = some s →
       s.status = "pending" →
       ∃ l2 upd, cancelSubmission subs id actor now = .ok (l2, upd)
         ∧ upd.status = "cancelled"
         ∧ upd.status_history = s.status_history ++
             [{ status := "cancelled", timestamp := now,
                note := "Dibatalkan oleh pengguna", updated_by := some actor }]
         ∧ upd.id = s.id ∧ upd.user_id = s.user_id
         ∧ upd.actual_weight = s.actual_weight
         ∧ upd.price_per_kg = s.price_per_kg
         ∧ upd.actual_value = s.actual_value
         ∧ upd.platform_fee = s.platform_fee
         ∧ upd.actual_transfer = s.actual_transfer
         ∧ l2 = replaceFirst (fun x => x.id = id && x.user_id = actor)
             (fun _ => upd) subs) := by
  have h2 : ∀ (subs : List Submission) (id actor now : Nat),
      subs.find? (fun x => x.id = id && x.user_id = actor) = none →
      cancelSubmission subs id actor now = .error .notFound := by
    intro subs id actor now hf
    unfold cancelSubmission
    rw [hf]
  have h3 : ∀ (subs : List Submission) (id actor now : Nat) (s : Submission),
      subs.find? (fun x => x.id = id && x.user_id = actor) = some s →
      s.status ≠ "pending" →
      cancelSubmission subs id actor now = .error .forbidden := by
    intro subs id actor now s hf hs
    unfold cancelSubmission
    rw [hf]
    exact if_pos hs
  have h4 : ∀ (subs : List Submission) (id actor now : Nat) (s : Submission),
      subs.find? (fun x => x.id = id && x.user_id = actor) = some s →
      s.status = "pending" →
      ∃ l2 upd, cancelSubmission subs id actor now = .ok (l2, upd)
        ∧ upd.status = "cancelled"
        ∧ upd.status_history = s.status_history ++
            [{ status := "cancelled", timestamp := now,
               note := "Dibatalkan oleh pengguna", updated_by := some actor }]
        ∧ upd.id = s.id ∧ upd.user_id = s.user_id
        ∧ upd.actual_weight = s.actual_weight
        ∧ upd.price_per_kg = s.price_per_kg
        ∧ upd.actual_value = s.actual_value
        ∧ upd.platform_fee = s.platform_fee
        ∧ upd.actual_transfer = s.actual_transfer
        ∧ l2 = replaceFirst (fun x => x.id = id && x.user_id = actor)
            (fun _ => upd) subs := by
    intro subs id actor now s hf hs
    unfold cancelSubmission
    rw [hf]
    exact ⟨_, _, if_neg (not_not_intro hs), rfl, rfl, rfl, rfl, rfl, rfl,
      rfl, rfl, rfl, rfl⟩
  refine ⟨?_, h2, h3, h4⟩
  intro subs id actor now
  constructor
  · rintro ⟨r, hr⟩
    cases hf : subs.find? (fun x => x.id = id && x.user_id = actor) with
    | none =>
      rw [h2 subs id actor now hf] at hr
      exact Except.noConfusion hr
    | some s =>
      by_cases hs : s.status = "pending"
      · exact ⟨s, rfl, hs⟩
      · rw [h3 subs id actor now s hf hs] at hr
        exact Except.noConfusion hr
  · rintro ⟨s, hf, hs⟩
    obtain ⟨l2, upd, heq, -⟩ := h4 subs id actor now s hf hs
    exact ⟨_, heq⟩

/-- C4 witness: owner 7 cancels pending submission 1 (succeeds with one
appended history entry); actor 8 on the same submission gets `notFound`;
owner 7 on the completed copy gets `forbidden`. -/
theorem cancel_contract_witness :
    ([subBotol].find? (fun x => x.id = 1 && x.user_id = 7) = some subBotol
     ∧ subBotol.status = "pending"
     ∧ (∃ l2 upd, cancelSubmission [subBotol] 1 7 300 = .ok (l2, upd)
          ∧ upd.status = "cancelled"
          ∧ upd.status_history = subBotol.status_history ++
              [{ status := "cancelled", timestamp := 300,
                 note := "Dibatalkan oleh pengguna", updated_by := some 7 }]))
  ∧ ([subBotol].find? (fun x => x.id = 1 && x.user_id = 8) = none
     ∧ cancelSubmission [subBotol] 1 8 300 = .error .notFound)
  ∧ ([subCompleted].find? (fun x => x.id = 1 && x.user_id = 7) = some subCompleted
     ∧ subCompleted.status ≠ "pending"
     ∧ cancelSubmission [subCompleted] 1 7 300 = .error .forbidden) :=
  ⟨⟨by decide, by decide,
    (cancel_contract.2.2.2 [subBotol] 1 7 300 subBotol (by decide)
        (by decide)).imp
      (fun l2 h => h.imp (fun upd h2 => ⟨h2.1, h2.2.1, h2.2.2.1⟩))⟩,
   ⟨by decide, cancel_contract.2.1 [subBotol] 1 8 300 (by decide)⟩,
   ⟨by decide, by decide,
    cancel_contract.2.2.1 [subCompleted] 1 7 300 subCompleted (by decide)
      (by decide)⟩⟩

/-- C4 counterexample: the claim says every failing cancel raises
`ForbiddenError`; cancelling someone else's pending submission (actor 8,
owner 7) yields `NotFoundError` instead, because the route's lookup is scoped
to the actor. -/
theorem cancel_foreign_is_not_found :
    cancelSubmission [subBotol] 1 8 300 = .error .notFound
    ∧ subBotol.user_id = 7 ∧ subBotol.status = "pending"
    ∧ ApiError.notFound ≠ ApiError.forbidden := by
  refine ⟨by decide, by decide, by decide, by decide⟩

/-! ## C2 — no terminal-state guard in either status route -/

/-- C2: the spec requires every transition out of `completed` or `cancelled`
to fail with `InvalidTransitionError`; neither status route checks the
current status at all.  Evaluated at the failing inputs: moving a `completed`
submission back to `pending` via `PATCH /:id/status` succeeds (history grows,
status overwritten), and moving a `cancelled` one to `picked_up` via the
admin `PATCH /submissions/:id` succeeds likewise. -/
theorem terminal_states_not_enforced :
    (updateSubmissionStatus [subCompleted] 1 "pending" none none none 9 300
       = .ok ([subCompletedP], subCompletedP)
     ∧ subCompleted.status = "completed"
     ∧ subCompletedP.status = "pending"
     ∧ subCompletedP.status_history.length
         = subCompleted.status_history.length + 1)
  ∧ (adminPatchSubmission [subCancelled] 1 (some "picked_up") none none none 9 300
       = .ok ([subCancelledPU], subCancelledPU)
     ∧ subCancelled.status = "cancelled"
     ∧ subCancelledPU.status = "picked_up") := by
  constructor
  · refine ⟨?_, by decide, by decide, by decide⟩
    norm_num +decide [updateSubmissionStatus, applyStatusUpdate,
      VALID_STATUSES, subCompleted, subCompletedP, subBotol, addrA,
      List.find?, replaceFirst]
  · refine ⟨?_, by decide, by decide⟩
    norm_num +decide [adminPatchSubmission, VALID_STATUSES, subCancelled,
      subCancelledPU, subBotol, addrA, List.find?, replaceFirst]

/-! ## Inversion lemmas for the mutating routes -/

theorem createSubmission_ok {subs : List Submission} {user : User}
    {wt : String} {w : ℚ} {ewt addr : String} {sched : Nat}
    {notes : Option String} {imgs : List String} {now : Nat}
    {l2 : List Submission} {sub : Submission}
    (h : createSubmission subs user wt w ewt addr sched notes imgs now
      = .ok (l2, sub)) :
    l2 = subs ++ [sub] ∧ sub.actual_weight = none ∧ sub.actual_value = none
    ∧ sub.actual_transfer = none
    ∧ sub.platform_fee = some (sub.estimated_value * (1/10))
    ∧ sub.estimated_value = sub.estimated_weight * sub.price_per_kg
    ∧ sub.status = "pending" ∧ sub.status_history.length = 1 := by
  unfold createSubmission at h
  split at h
  · exact Except.noConfusion h
  · split at h
    · exact Except.noConfusion h
    · split at h
      · exact Except.noConfusion h
      · split at h
        · exact Except.noConfusion h
        · split at h
          · exact Except.noConfusion h
          · split at h
            · exact Except.noConfusion h
            · split at h
              · exact Except.noConfusion h
              · injection h with h
                injection h with hl hs
                subst hl
                subst hs
                exact ⟨rfl, rfl, rfl, rfl, rfl, rfl, rfl, rfl⟩

theorem updateSubmissionStatus_ok {subs : List Submission} {id : Nat}
    {st : String} {note : Option String} {aw : Option ℚ} {d : Option Int}
    {actor now : Nat} {l2 : List Submission} {upd : Submission}
    (h : updateSubmissionStatus subs id st note aw d actor now
      = .ok (l2, upd)) :
    ∃ pre, subs.find? (fun s => s.id = id) = some pre
      ∧ upd = applyStatusUpdate st note aw d actor now pre
      ∧ l2 = replaceFirst (fun s => s.id = id) (fun _ => upd) subs := by
  unfold updateSubmissionStatus at h
  split at h
  · exact Except.noConfusion h
  · split at h
    · exact Except.noConfusion h
    · split at h
      · exact Except.noConfusion h
      · split at h
        · exact Except.noConfusion h
        · next pre hfind =>
          injection h with h
          injection h with hl hs
          subst hl
          subst hs
          exact ⟨pre, hfind, rfl, rfl⟩

theorem adminPatchSubmission_ok {subs : List Submission} {id : Nat}
    {st : Option String} {aw : Option ℚ} {an : Option String}
    {pd : Option Int} {actor now : Nat} {l2 : List Submission}
    {upd : Submission}
    (h : adminPatchSubmission subs id st aw an pd actor now = .ok (l2, upd)) :
    ∃ pre, subs.find? (fun s => s.id = id) = some pre
      ∧ upd = applyAdminPatch st aw an pd actor now pre
      ∧ l2 = replaceFirst (fun s => s.id = id) (fun _ => upd) subs := by
  unfold adminPatchSubmission at h
  split at h
  · exact Except.noConfusion h
  · split at h
    · exact Except.noConfusion h
    · split at h
      · exact Except.noConfusion h
      · split at h
        · exact Except.noConfusion h
        · next pre hfind =>
          injection h with h
          injection h with hl hs
          subst hl
          subst hs
          exact ⟨pre, hfind, rfl, rfl⟩

theorem cancelSubmission_ok {subs : List Submission} {id actor now : Nat}
    {l2 : List Submission} {upd : Submission}
    (h : cancelSubmission subs id actor now = .ok (l2, upd)) :
    ∃ pre, subs.find? (fun x => x.id = id && x.user_id = actor) = some pre
      ∧ upd = { pre with
          status := "cancelled", updated_at := now,
          status_history := pre.status_history ++
            [{ status := "cancelled", timestamp := now,
               note := "Dibatalkan oleh pengguna", updated_by := some actor }] }
      ∧ l2 = replaceFirst (fun x => x.id = id && x.user_id = actor)
          (fun _ => upd) subs := by
  unfold cancelSubmission at h
  split at h
  · exact Except.noConfusion h
  · next pre hfind =>
    split at h
    · exact Except.noConfusion h
    · injection h with h
      injection h with hl hs
      subst hl
      subst hs
      exact ⟨pre, hfind, rfl, rfl⟩

/-! ## Preservation of the financial invariant -/

set_option maxHeartbeats 2000000 in
theorem finConsistent_applyStatusUpdate {sub : Submission}
    (st : String) (note : Option String) (aw : Option ℚ) (d : Option Int)
    (actor now : Nat) (h : finConsistent sub) :
    finConsistent (applyStatusUpdate st note aw d actor now sub)
    ∧ (applyStatusUpdate st note aw d actor now sub).price_per_kg
        = sub.price_per_kg := by
  unfold applyStatusUpdate
  constructor
  · repeat' split
    all_goals first
      | exact ⟨rfl, rfl, rfl⟩
      | exact h
  · repeat' split
    all_goals rfl

set_option maxHeartbeats 4000000 in
theorem finConsistent_applyAdminPatch {sub : Submission}
    (st : Option String) (aw : Option ℚ) (an : Option String)
    (pd : Option Int) (actor now : Nat) (h : finConsistent sub) :
    finConsistent (applyAdminPatch st aw an pd actor now sub)
    ∧ (applyAdminPatch st aw an pd actor now sub).price_per_kg
        = sub.price_per_kg := by
  unfold applyAdminPatch
  constructor
  · repeat' split
    all_goals first
      | exact ⟨rfl, rfl, rfl⟩
      | exact h
  · repeat' split
    all_goals rfl

/-! ## C1 — financial fields across every operation -/

/-- C1 (amended): whenever `actual_weight` is non-null the derived fields
satisfy `actual_value = actual_weight * price_per_kg` (with the
`price_per_kg` snapshotted in the record, which every route leaves
untouched), `platform_fee = actual_value * 0.10` **exactly** (no rounding to
2 decimals anywhere in the code), and
`actual_transfer = actual_value - platform_fee`; `actual_value` and
`actual_transfer` are null until `actual_weight` is set, but `platform_fee`
is already non-null at creation, holding `estimated_value * 0.10`.  The
invariant is established by `create` and preserved by the status route, the
admin route and cancel. -/
theorem financial_fields_invariant :
    (∀ (subs : List Submission) (user : User) (wt : String) (w : ℚ)
       (ewt addr : String) (sched : Nat) (notes : Option String)
       (imgs : List String) (now : Nat) (l2 : List Submission)
       (sub : Submission),
       createSubmission subs user wt w ewt addr sched notes imgs now
         = .ok (l2, sub) →
       finConsistent sub
       ∧ sub.platform_fee = some (sub.estimated_value * (1/10))
       ∧ sub.actual_weight = none ∧ sub.actual_value = none
       ∧ sub.actual_transfer = none)
  ∧ (∀ (subs : List Submission) (id : Nat) (st : String)
       (note : Option String) (aw : Option ℚ) (d : Option Int)
       (actor now : Nat) (l2 : List Submission) (upd : Submission),
       updateSubmissionStatus subs id st note aw d actor now = .ok (l2, upd) →
       (∀ s ∈ subs, finConsistent s) →
       (∀ s ∈ l2, finConsistent s)
       ∧ ∃ pre, subs.find? (fun s => s.id = id) = some pre
           ∧ upd.price_per_kg = pre.price_per_kg)
  ∧ (∀ (subs : List Submission) (id : Nat) (st : Option String)
       (aw : Option ℚ) (an : Option String) (pd : Option Int)
       (actor now : Nat) (l2 : List Submission) (upd : Submission),
       adminPatchSubmission subs id st aw an pd actor now = .ok (l2, upd) →
       (∀ s ∈ subs, finConsistent s) →
       (∀ s ∈ l2, finConsistent s)
       ∧ ∃ pre, subs.find? (fun s => s.id = id) = some pre
           ∧ upd.price_per_kg = pre.price_per_kg)
  ∧ (∀ (subs : List Submission) (id actor now : Nat)
       (l2 : List Submission) (upd : Submission),
       cancelSubmission subs id actor now = .ok (l2, upd) →
       (∀ s ∈ subs, finConsistent s) →
       (∀ s ∈ l2, finConsistent s)) := by
  refine ⟨?_, ?_, ?_, ?_⟩
  · intro subs user wt w ewt addr sched notes imgs now l2 sub h
    obtain ⟨-, hw, hv, ht, hf, -, -, -⟩ := createSubmission_ok h
    refine ⟨?_, hf, hw, hv, ht⟩
    unfold finConsistent
    rw [hw]
    exact ⟨hv, ht⟩
  · intro subs id st note aw d actor now l2 upd h hpre
    obtain ⟨pre, hfind, hupd, hl2⟩ := updateSubmissionStatus_ok h
    have hmem := List.mem_of_find?_eq_some hfind
    have hpc := finConsistent_applyStatusUpdate st note aw d actor now
      (hpre pre hmem)
    constructor
    · intro s hs
      rw [hl2] at hs
      rcases mem_replaceFirst hs with hmem2 | ⟨y, hy, hpy, hfy⟩
      · exact hpre s hmem2
      · rw [hfy, hupd]
        exact hpc.1
    · exact ⟨pre, hfind, by rw [hupd]; exact hpc.2⟩
  · intro subs id st aw an pd actor now l2 upd h hpre
    obtain ⟨pre, hfind, hupd, hl2⟩ := adminPatchSubmission_ok h
    have hmem := List.mem_of_find?_eq_some hfind
    have hpc := finConsistent_applyAdminPatch st aw an pd actor now
      (hpre pre hmem)
    constructor
    · intro s hs
      rw [hl2] at hs
      rcases mem_replaceFirst hs with hmem2 | ⟨y, hy, hpy, hfy⟩
      · exact hpre s hmem2
      · rw [hfy, hupd]
        exact hpc.1
    · exact ⟨pre, hfind, by rw [hupd]; exact hpc.2⟩
  · intro subs id actor now l2 upd h hpre
    obtain ⟨pre, hfind, hupd, hl2⟩ := cancelSubmission_ok h
    have hmem := List.mem_of_find?_eq_some hfind
    intro s hs
    rw [hl2] at hs
    rcases mem_replaceFirst hs with hmem2 | ⟨y, hy, hpy, hfy⟩
    · exact hpre s hmem2
    · rw [hfy, hupd]
      exact hpre pre hmem

/-- C1 witness: verifying the spec §8 scenario — `subBotol` verified at
1.8 kg gives 5400 / 540 / 4860 and the whole collection satisfies the
invariant afterwards. -/
theorem financial_fields_invariant_witness :
    updateSubmissionStatus [subBotol] 1 "verified" none (some (9/5)) none 9 200
      = .ok ([subBotolV18], subBotolV18)
    ∧ (∀ s ∈ [subBotol], finConsistent s)
    ∧ ((∀ s ∈ [subBotolV18], finConsistent s)
       ∧ ∃ pre, [subBotol].find? (fun s => s.id = 1) = some pre
           ∧ subBotolV18.price_per_kg = pre.price_per_kg) := by
  have heval : updateSubmissionStatus [subBotol] 1 "verified" none
      (some (9/5)) none 9 200 = .ok ([subBotolV18], subBotolV18) := by
    norm_num +decide [updateSubmissionStatus, applyStatusUpdate,
      VALID_STATUSES, PLATFORM_FEE_PERCENTAGE, subBotol, subBotolV18, addrA,
      List.find?, replaceFirst]
  have hpre : ∀ s ∈ [subBotol], finConsistent s := by
    intro s hs
    rw [List.mem_singleton] at hs
    subst hs
    exact ⟨rfl, rfl⟩
  exact ⟨heval, hpre,
    financial_fields_invariant.2.1 [subBotol] 1 "verified" none (some (9/5))
      none 9 200 [subBotolV18] subBotolV18 heval hpre⟩

/-- C1 counterexample: at creation ("Kertas", 2 kg) `platform_fee` is already
`some 300` while `actual_weight` is still null — refuting "all three fields
are null until `actual_weight` is set" — and after verification at 0.1111 kg
the stored fee is 16.665, not `round(actual_value * 0.10, 2) = 16.67` —
refuting the 2-decimal rounding part. -/
theorem platform_fee_unrounded_and_set_at_creation :
    (createSubmission [] userA "Kertas" 2 "dana" addrA 5 none [] 100
       = .ok ([subKertas], subKertas)
     ∧ subKertas.actual_weight = none ∧ subKertas.platform_fee = some 300)
  ∧ (updateSubmissionStatus [subKertas] 1 "verified" none (some (1111/10000))
       none 9 200 = .ok ([subKertasV], subKertasV)
     ∧ subKertasV.actual_weight = some (1111/10000)
     ∧ subKertasV.actual_value = some (3333/20)
     ∧ subKertasV.platform_fee = some (3333/200)
     ∧ round2 ((3333/20) * (1/10)) = 1667/100
     ∧ (3333/200 : ℚ) ≠ 1667/100) := by
  refine ⟨⟨?_, rfl, rfl⟩, ⟨?_, rfl, rfl, rfl, ?_, by norm_num⟩⟩
  · have hlen : ("Jl. Pahlawan No. 123").length = 20 := rfl
    have hb1 : (("Kertas" : String) == "Botol Plastik") = false := by decide
    have hb2 : (("Kertas" : String) == "Kardus") = false := by decide
    have hb3 : (("Kertas" : String) == "Kaleng Aluminium") = false := by decide
    have hb4 : (("Kertas" : String) == "Kertas") = true := by decide
    norm_num +decide [createSubmission, WASTE_PRICING, EWALLET_TYPES,
      PLATFORM_FEE_PERCENTAGE, userA, addrA, subKertas, subBotol, generateId,
      List.lookup, hlen, hb1, hb2, hb3, hb4]
  · norm_num +decide [updateSubmissionStatus, applyStatusUpdate,
      VALID_STATUSES, PLATFORM_FEE_PERCENTAGE, subKertas, subKertasV,
      subBotol, addrA, List.find?, replaceFirst]
  · norm_num [round2, round_eq]

/-! ## C10 — actualWeight = 0 on the two verify paths -/

set_option maxHeartbeats 4000000 in
/-- C10 (amended): in `PATCH /:id/status`, `actual_weight` is guarded by a JS
truthiness check, so supplying exactly 0 appends the history entry, sets the
status and `verification_time`, and leaves all four financial fields
untouched; the fields are recomputed only for nonzero weight.  The admin
route `PATCH /submissions/:id`, however, guards with `!== undefined`, so a
supplied weight of 0 does recompute, zeroing `actual_value`, `platform_fee`
and `actual_transfer`. -/
theorem verified_zero_weight_behavior :
    (∀ (subs : List Submission) (id : Nat) (note : Option String)
       (d : Option Int) (actor now : Nat) (l2 : List Submission)
       (upd pre : Submission),
       updateSubmissionStatus subs id "verified" note (some 0) d actor now
         = .ok (l2, upd) →
       subs.find? (fun s => s.id = id) = some pre →
       upd.actual_weight = pre.actual_weight
       ∧ upd.actual_value = pre.actual_value
       ∧ upd.platform_fee = pre.platform_fee
       ∧ upd.actual_transfer = pre.actual_transfer
       ∧ upd.status = "verified"
       ∧ upd.verification_time = some now
       ∧ upd.status_history = pre.status_history ++
           [{ status := "verified", timestamp := now, note := note.getD "",
              updated_by := some actor }])
  ∧ (∀ (subs : List Submission) (id : Nat) (note : Option String) (w : ℚ)
       (d : Option Int) (actor now : Nat) (l2 : List Submission)
       (upd pre : Submission),
       w ≠ 0 →
       updateSubmissionStatus subs id "verified" note (some w) d actor now
         = .ok (l2, upd) →
       subs.find? (fun s => s.id = id) = some pre →
       upd.actual_weight = some w
       ∧ upd.actual_value = some (w * pre.price_per_kg)
       ∧ upd.platform_fee = some (w * pre.price_per_kg * (1/10))
       ∧ upd.actual_transfer
           = some (w * pre.price_per_kg - w * pre.price_per_kg * (1/10)))
  ∧ (∀ (subs : List Submission) (id : Nat) (an : Option String)
       (pd : Option Int) (actor now : Nat) (l2 : List Submission)
       (upd pre : Submission),
       adminPatchSubmission subs id (some "verified") (some 0) an pd actor now
         = .ok (l2, upd) →
       subs.find? (fun s => s.id = id) = some pre →
       upd.actual_weight = some 0
       ∧ upd.actual_value = some 0
       ∧ upd.platform_fee = some 0
       ∧ upd.actual_transfer = some 0
       ∧ upd.verification_time = some now) := by
  refine ⟨?_, ?_, ?_⟩
  · intro subs id note d actor now l2 upd pre h hfind
    obtain ⟨pre2, hfind2, hupd, -⟩ := updateSubmissionStatus_ok h
    rw [hfind] at hfind2
    injection hfind2 with hpre
    subst hpre
    subst hupd
    refine ⟨?_, ?_, ?_, ?_, ?_, ?_, ?_⟩ <;>
      norm_num +decide [applyStatusUpdate]
  · intro subs id note w d actor now l2 upd pre hw h hfind
    obtain ⟨pre2, hfind2, hupd, -⟩ := updateSubmissionStatus_ok h
    rw [hfind] at hfind2
    injection hfind2 with hpre
    subst hpre
    subst hupd
    refine ⟨?_, ?_, ?_, ?_⟩ <;>
      norm_num +decide [applyStatusUpdate, PLATFORM_FEE_PERCENTAGE, hw]
  · intro subs id an pd actor now l2 upd pre h hfind
    obtain ⟨pre2, hfind2, hupd, -⟩ := adminPatchSubmission_ok h
    rw [hfind] at hfind2
    injection hfind2 with hpre
    subst hpre
    subst hupd
    unfold applyAdminPatch
    repeat' split
    all_goals simp_all
    all_goals subst_vars
    all_goals norm_num

/-- C10 counterexample: the claim says a verify transition with
`actualWeight = 0` leaves the financial fields unchanged (still null); the
admin route at that exact input sets them to `some 0` instead. -/
theorem admin_zero_weight_recomputes :
    adminPatchSubmission [subBotol] 1 (some "verified") (some 0) none none 9 300
      = .ok ([subBotolA0], subBotolA0)
    ∧ subBotol.actual_value = none ∧ subBotol.actual_transfer = none
    ∧ subBotolA0.actual_weight = some 0
    ∧ subBotolA0.actual_value = some 0
    ∧ subBotolA0.platform_fee = some 0
    ∧ subBotolA0.actual_transfer = some 0 := by
  refine ⟨?_, rfl, rfl, rfl, rfl, rfl, rfl⟩
  norm_num +decide [adminPatchSubmission, applyAdminPatch, VALID_STATUSES,
    subBotol, subBotolA0, addrA, List.find?, replaceFirst]

/-- C10 witness: the status route with weight 0 on `subBotol` leaves the
financial fields untouched while still appending history and stamping the
verification time. -/
theorem verified_zero_weight_behavior_witness :
    updateSubmissionStatus [subBotol] 1 "verified" none (some 0) none 9 300
      = .ok ([subBotolV0], subBotolV0)
    ∧ [subBotol].find? (fun s => s.id = 1) = some subBotol
    ∧ (subBotolV0.actual_weight = subBotol.actual_weight
       ∧ subBotolV0.actual_value = subBotol.actual_value
       ∧ subBotolV0.platform_fee = subBotol.platform_fee
       ∧ subBotolV0.actual_transfer = subBotol.actual_transfer
       ∧ subBotolV0.status = "verified"
       ∧ subBotolV0.verification_time = some 300
       ∧ subBotolV0.status_history = subBotol.status_history ++
           [{ status := "verified", timestamp := 300,
              note := (none : Option String).getD "",
              updated_by := some 9 }]) := by
  have heval : updateSubmissionStatus [subBotol] 1 "verified" none (some 0)
      none 9 300 = .ok ([subBotolV0], subBotolV0) := by
    norm_num +decide [updateSubmissionStatus, applyStatusUpdate,
      VALID_STATUSES, subBotol, subBotolV0, addrA, List.find?, replaceFirst]
  exact ⟨heval, by decide,
    verified_zero_weight_behavior.1 [subBotol] 1 none none 9 300 [subBotolV0]
      subBotolV0 subBotol heval (by decide)⟩

/-! ## C3 — review aggregator -/

theorem submitReview_ok {points : List BankSampah} {pid uid : Nat}
    {uname : String} {rating : Int} {comment : Option String} {now : Nat}
    {l2 : List BankSampah} {rev : Review} {nr : ℚ}
    (h : submitReview points pid (some (uid, uname)) rating comment now
      = .ok (l2, rev, nr)) :
    ∃ bs, points.find? (fun b => b.id = pid && b.is_active) = some bs
      ∧ rev = (applyReview uid uname rating comment now bs).2.1
      ∧ nr = (applyReview uid uname rating comment now bs).2.2
      ∧ l2 = replaceFirst (fun p => p.id = pid && p.is_active)
          (fun _ => (applyReview uid uname rating comment now bs).1) points := by
  unfold submitReview at h
  split at h
  · exact Except.noConfusion h
  · rename_i uid2 uname2 heq
    injection heq with heq2
    injection heq2 with hu hn
    subst hu
    subst hn
    split at h
    · exact Except.noConfusion h
    · split at h
      · exact Except.noConfusion h
      · split at h
        · exact Except.noConfusion h
        · rename_i bs hfind
          injection h with h
          injection h with hl h
          injection h with hrev hnr
          subst hl
          subst hrev
          subst hnr
          exact ⟨bs, hfind, rfl, rfl, rfl⟩

theorem reviewOutcome_applyReview (uid : Nat) (uname : String) (rating : Int)
    (comment : Option String) (now : Nat) (bs : BankSampah) :
    ReviewOutcome uid (applyReview uid uname rating comment now bs).2.1 bs
      (applyReview uid uname rating comment now bs).1 := by
  unfold applyReview ReviewOutcome
  by_cases hex : (bs.reviews.getD []).any (fun r => decide (r.user_id = uid))
  · obtain ⟨x, hxmem, hx⟩ := List.any_eq_true.mp hex
    obtain ⟨r0, hr0⟩ : ∃ r0,
        (bs.reviews.getD []).find? (fun r => decide (r.user_id = uid))
          = some r0 := by
      rw [← Option.isSome_iff_exists, List.find?_isSome]
      exact ⟨x, hxmem, hx⟩
    simp only [hex, hr0, if_true, Option.getD_some]
    refine ⟨by trivial, ?_, ?_, ?_, ?_⟩
    · intro hlen
      rw [length_replaceFirst]
      exact hlen
    · intro hle
      have hcp := @countP_replaceFirst _ (fun r => decide (r.user_id = uid))
        { id := r0.id, user_id := uid, user_name := uname,
          rating := rating, comment := comment.getD "",
          created_at := now, updated_at := now } (by simp)
        (bs.reviews.getD [])
      rw [hcp]
      have hpos : 0 < (bs.reviews.getD []).countP
          (fun r => decide (r.user_id = uid)) :=
        List.countP_pos_iff.mpr ⟨x, hxmem, hx⟩
      omega
    · intro r1 hr1
      injection hr1 with hr1
      subst hr1
      exact ⟨length_replaceFirst _ _ _, rfl⟩
    · intro hnone
      exact Option.noConfusion hnone
  · have hnone : (bs.reviews.getD []).find? (fun r => decide (r.user_id = uid))
        = none := by
      apply List.find?_eq_none.mpr
      intro x hxmem hx
      exact hex (List.any_eq_true.mpr ⟨x, hxmem, hx⟩)
    simp only [hex, hnone, Option.getD_some, Bool.false_eq_true, if_false]
    refine ⟨by trivial, ?_, ?_, ?_, ?_⟩
    · intro hlen
      simp [hlen]
    · intro hle
      have hz : (bs.reviews.getD []).countP (fun r => decide (r.user_id = uid))
          = 0 := by
        apply List.countP_eq_zero.mpr
        intro x hxmem hx
        exact hex (List.any_eq_true.mpr ⟨x, hxmem, hx⟩)
      rw [List.countP_append, hz]
      simp
    · intro r1 hr1
      exact Option.noConfusion hr1
    · intro _
      exact ⟨by trivial, by trivial⟩

/-- C3 (amended): after every review submission the point's `rating` equals
the 1-decimal-rounded mean of the embedded collection, a second review from
the same user replaces the first in place (same id, collection size
unchanged) so at most one review per (user, point) pair survives, and
`total_reviews` matches the collection size **provided it matched before the
operation** — the operation preserves the equality but does not establish it,
and the seeded data ships points with a `total_reviews` count and no embedded
collection, for which it fails. -/
theorem review_aggregator_contract :
    ∀ (points : List BankSampah) (pid uid : Nat) (uname : String)
      (rating : Int) (comment : Option String) (now : Nat)
      (l2 : List BankSampah) (rev : Review) (nr : ℚ) (bs : BankSampah),
      submitReview points pid (some (uid, uname)) rating comment now
        = .ok (l2, rev, nr) →
      points.find? (fun b => b.id = pid && b.is_active) = some bs →
      rev.user_id = uid ∧ rev.rating = rating
      ∧ ∀ bs2 ∈ l2, bs2 ∈ points ∨ ReviewOutcome uid rev bs bs2 := by
  intro points pid uid uname rating comment now l2 rev nr bs h hfind
  obtain ⟨bs2, hfind2, hrev, hnr, hl2⟩ := submitReview_ok h
  rw [hfind] at hfind2
  injection hfind2 with hbs
  subst hbs
  refine ⟨by subst hrev; rfl, by subst hrev; rfl, ?_⟩

  intro p2 hp2
  rw [hl2] at hp2
  rcases mem_replaceFirst hp2 with hmem | ⟨y, hy, hpy, hfy⟩
  · exact Or.inl hmem
  · subst hfy
    subst hrev
    exact Or.inr (reviewOutcome_applyReview uid uname rating comment now bs)

/-- C3 counterexample: the seeded point 1 ships `total_reviews = 127` with no
embedded collection; the very first review yields a point whose
`total_reviews` is 128 while the collection holds exactly one review — the
claimed "total_reviews equals the size of that collection" fails right after
a review-submission operation. -/
theorem seeded_total_reviews_mismatch :
    submitReview [bsSeed] 1 (some (7, "Andi")) 3 none 50
      = .ok ([bsSeed2], revSeed, 3)
    ∧ bsSeed.total_reviews = 127 ∧ bsSeed.reviews = none
    ∧ bsSeed2.total_reviews = 128
    ∧ (bsSeed2.reviews.getD []).length = 1
    ∧ (128 : Nat) ≠ 1 := by
  refine ⟨?_, rfl, rfl, rfl, rfl, by decide⟩
  norm_num +decide [submitReview, applyReview, bsSeed, bsSeed2, revSeed,
    generateId, round1, round_eq, List.find?, replaceFirst]

/-- C3 witness: the spec §8 scenario — rating 5 then rating 3 from the same
user leaves exactly one review (same id), and the point's rating is
recomputed to 3 from the single-element collection. -/
theorem review_aggregator_contract_witness :
    submitReview [bsW] 1 (some (7, "Andi")) 3 none 50
      = .ok ([bsW2], revSeed, 3)
    ∧ [bsW].find? (fun b => b.id = 1 && b.is_active) = some bsW
    ∧ (revSeed.user_id = 7 ∧ revSeed.rating = 3
       ∧ ∀ bs2 ∈ [bsW2], bs2 ∈ [bsW] ∨ ReviewOutcome 7 revSeed bsW bs2)
    ∧ (bsW.reviews.getD []).length = 1
    ∧ (bsW2.reviews.getD []).length = 1
    ∧ bsW2.rating = 3 := by
  have heval : submitReview [bsW] 1 (some (7, "Andi")) 3 none 50
      = .ok ([bsW2], revSeed, 3) := by
    norm_num +decide [submitReview, applyReview, bsW, bsW2, bsSeed, revSeed,
      generateId, round1, round_eq, List.find?, replaceFirst]
  exact ⟨heval, by decide,
    review_aggregator_contract [bsW] 1 7 "Andi" 3 none 50 [bsW2] revSeed 3 bsW
      heval (by decide), rfl, rfl, rfl⟩

/-! ## C9 — storage failures are swallowed, not surfaced -/

/-- C9 (amended): `loadJsonFile` catches a missing file or a read/parse
failure and returns the default collection; `saveJsonFile` catches a write
failure and returns `false`; and the create route ignores the save outcome
entirely — its response is identical whether the save succeeded or failed,
so an operation can proceed on defaulted data and report success after a
storage failure, and no `StorageError` is ever produced. -/
theorem storage_failures_swallowed :
    (∀ (d : List Submission), loadJsonFile none d = d)
  ∧ (∀ (d : List Submission) (data : List Submission),
       loadJsonFile (some data) d = data)
  ∧ (∀ (b : Bool), saveJsonFile b = b)
  ∧ (∀ (loadResult : Option (List Submission)) (s1 s2 : Bool) (user : User)
       (wt : String) (w : ℚ) (ewt addr : String) (sched : Nat)
       (notes : Option String) (imgs : List String) (now : Nat),
       createSubmissionRoute loadResult s1 user wt w ewt addr sched notes
           imgs now
         = createSubmissionRoute loadResult s2 user wt w ewt addr sched notes
           imgs now)
  ∧ (∀ (loadResult : Option (List Submission)) (b : Bool) (user : User)
       (wt : String) (w : ℚ) (ewt addr : String) (sched : Nat)
       (notes : Option String) (imgs : List String) (now : Nat),
       createSubmissionRoute loadResult b user wt w ewt addr sched notes
           imgs now
         ≠ .error .storageError) := by
  refine ⟨fun _ => rfl, fun _ _ => rfl, fun _ => rfl, ?_, ?_⟩
  · intro loadResult s1 s2 user wt w ewt addr sched notes imgs now
    unfold createSubmissionRoute
    rfl
  · intro loadResult b user wt w ewt addr sched notes imgs now
    unfold createSubmissionRoute
    split
    · exact fun hc => Except.noConfusion hc
    · next e heq =>
      intro hc
      have he : e = ApiError.storageError := Except.error.inj hc
      subst he
      revert heq
      unfold createSubmission
      split
      · exact fun hx => ApiError.noConfusion (Except.error.inj hx)
      · split
        · exact fun hx => ApiError.noConfusion (Except.error.inj hx)
        · split
          · exact fun hx => ApiError.noConfusion (Except.error.inj hx)
          · split
            · exact fun hx => ApiError.noConfusion (Except.error.inj hx)
            · split
              · exact fun hx => ApiError.noConfusion (Except.error.inj hx)
              · split
                · exact fun hx => ApiError.noConfusion (Except.error.inj hx)
                · split
                  · exact fun hx => ApiError.noConfusion (Except.error.inj hx)
                  · exact fun hx => Except.noConfusion hx

/-- C9 counterexample: with a failed write (`saveOutcome = false`) the create
route still answers 201 with the new record — the claim's required
`StorageError` never appears, and a failed load of the users file would have
been replaced by the default seed rather than surfaced. -/
theorem save_failure_reports_success :
    createSubmissionRoute (some []) false userA "Botol Plastik" 2 "dana"
        addrA 5 none [] 100 = .ok subBotol
    ∧ createSubmissionRoute (some []) false userA "Botol Plastik" 2 "dana"
        addrA 5 none [] 100 ≠ .error .storageError
    ∧ loadJsonFile (none : Option (List Submission)) [subBotol] = [subBotol] := by
  have hcreate : createSubmission [] userA "Botol Plastik" 2 "dana" addrA 5
      none [] 100 = .ok ([subBotol], subBotol) := by
    have hlen : ("Jl. Pahlawan No. 123").length = 20 := rfl
    have hne : ("081234567890" : String) ≠ "" := by decide
    norm_num +decide [createSubmission, WASTE_PRICING, EWALLET_TYPES,
      PLATFORM_FEE_PERCENTAGE, userA, addrA, subBotol, generateId,
      List.lookup, hlen, hne]
  refine ⟨?_, ?_, rfl⟩
  · unfold createSubmissionRoute loadJsonFile
    rw [hcreate]
  · unfold createSubmissionRoute loadJsonFile
    rw [hcreate]
    exact fun hc => Except.noConfusion hc

/-! ## C8 — month-over-month percentage change -/

/-- C8 (amended): for each of the four comparison metrics, when the previous
month's value is non-zero the reported change is
`((current - previous) / previous * 100).toFixed(1)` — the formula value
**rounded to one decimal** — and when the previous value is 0 the change is
100 if the current value is positive and 0 otherwise. -/
theorem comparison_change_formula :
    ∀ (subs : List Submission) (prevStart monthStart : Nat),
      let c := calculateStats (subs.filter (fun s => monthStart ≤ s.created_at))
      let p := calculateStats (subs.filter
        (fun s => prevStart ≤ s.created_at && s.created_at < monthStart))
      let changes := comparisonChanges subs prevStart monthStart
      (((p.total_submissions : ℚ) ≠ 0 →
          changes.1 = round1 (((c.total_submissions : ℚ) - p.total_submissions)
            / p.total_submissions * 100))
        ∧ ((p.total_submissions : ℚ) = 0 →
          changes.1 = if (c.total_submissions : ℚ) > 0 then 100 else 0))
      ∧ (((p.completed_submissions : ℚ) ≠ 0 →
          changes.2.1
            = round1 (((c.completed_submissions : ℚ) - p.completed_submissions)
              / p.completed_submissions * 100))
        ∧ ((p.completed_submissions : ℚ) = 0 →
          changes.2.1 = if (c.completed_submissions : ℚ) > 0 then 100 else 0))
      ∧ ((p.total_weight ≠ 0 →
          changes.2.2.1 = round1 ((c.total_weight - p.total_weight)
            / p.total_weight * 100))
        ∧ (p.total_weight = 0 →
          changes.2.2.1 = if c.total_weight > 0 then 100 else 0))
      ∧ ((p.total_earnings ≠ 0 →
          changes.2.2.2 = round1 ((c.total_earnings - p.total_earnings)
            / p.total_earnings * 100))
        ∧ (p.total_earnings = 0 →
          changes.2.2.2 = if c.total_earnings > 0 then 100 else 0)) := by
  intro subs prevStart monthStart
  refine ⟨⟨?_, ?_⟩, ⟨?_, ?_⟩, ⟨?_, ?_⟩, ⟨?_, ?_⟩⟩
  all_goals intro h
  all_goals
    first
      | simp only [comparisonChanges, calculateChange, if_neg h]
      | simp only [comparisonChanges, calculateChange, if_pos h]

/-- C8 counterexample: with 1 submission in the current month and 3 in the
previous, the code reports `(-66.666...).toFixed(1) = -66.7`, not the
claim's exact `(current - previous)/previous*100 = -200/3`. -/
theorem comparison_change_rounded_cex :
    (comparisonChanges subsC8 10 15).1 = -667/10
    ∧ (calculateStats (subsC8.filter (fun s => 15 ≤ s.created_at))).total_submissions = 1
    ∧ (calculateStats (subsC8.filter
        (fun s => 10 ≤ s.created_at && s.created_at < 15))).total_submissions = 3
    ∧ (-667/10 : ℚ) ≠ ((1 : ℚ) - 3) / 3 * 100 := by
  refine ⟨?_, by decide, by decide, by norm_num⟩
  norm_num +decide [comparisonChanges, calculateStats, calculateChange,
    truthyQ, subsC8, subFor, subBotol, addrA, round1, round_eq]

/-- C8 witness: the same fixture instantiates the amended formula — previous
3, current 1, reported change `round1(-200/3) = -66.7`; and the zero-previous
convention on an empty previous month gives 100. -/
theorem comparison_change_formula_witness :
    ((3 : ℚ) ≠ 0
     ∧ (comparisonChanges subsC8 10 15).1
         = round1 (((1 : ℚ) - 3) / 3 * 100))
    ∧ ((0 : ℚ) = 0
     ∧ (comparisonChanges subsC8 14 15).1
         = if ((1 : ℚ) > 0) then 100 else 0) := by
  have h1 := (comparison_change_formula subsC8 10 15).1.1
  have h2 := (comparison_change_formula subsC8 14 15).1.2
  have hc1 : (calculateStats (subsC8.filter (fun s => 15 ≤ s.created_at))).total_submissions = 1 := by decide
  have hp1 : (calculateStats (subsC8.filter
      (fun s => 10 ≤ s.created_at && s.created_at < 15))).total_submissions = 3 := by decide
  have hp2 : (calculateStats (subsC8.filter
      (fun s => 14 ≤ s.created_at && s.created_at < 15))).total_submissions = 0 := by decide
  constructor
  · refine ⟨by norm_num, ?_⟩
    rw [hc1, hp1] at h1
    exact h1 (by norm_num)
  · refine ⟨rfl, ?_⟩
    rw [hc1, hp2] at h2
    exact h2 (by norm_num)

/-! ## C6 — which distance value the search pipeline uses -/

theorem mem_dirSortLoc {sortBy : SortBy} {nameLe : String → String → Bool}
    {w : List (BankSampah × ℚ)} {p : BankSampah × ℚ} :
    p ∈ dirSortLoc sortBy nameLe w ↔ p ∈ w := by
  cases sortBy <;> simp [dirSortLoc, List.mem_mergeSort]

theorem mem_dirLocStage {dist : BankSampah → ℚ} {radius : ℚ}
    {l : List BankSampah} {bs : BankSampah} {q : ℚ}
    (h : (bs, q) ∈ dirLocStage dist radius l) :
    q = round2 (dist bs) ∧ q ≤ radius := by
  unfold dirLocStage at h
  rw [List.mem_filter] at h
  obtain ⟨hm, hq⟩ := h
  rw [List.mem_map] at hm
  obtain ⟨bs0, hbs0, heq⟩ := hm
  injection heq with h1 h2
  subst h1
  subst h2
  exact ⟨rfl, of_decide_eq_true hq⟩

/-- C6 (amended): in the main directory search (GET /) the attached distance
is `toFixed(2)`-rounded **before** the radius filter and the sort comparator,
so every returned item satisfies `round2 (dist bs) ≤ radius` and hence
`dist bs ≤ radius + 0.005`, within the claimed 0.01 km tolerance but not an
exact `dist bs ≤ radius`; in GET /nearby the unrounded value feeds the filter
and the ascending sort, and only the displayed field is rounded. -/
theorem distance_rounding_discipline :
    (∀ (dist : BankSampah → ℚ) (radius : ℚ) (search kota jenis : Option String)
       (sortBy : SortBy) (nameLe : String → String → Bool) (page limit : Nat)
       (l : List BankSampah) (bs : BankSampah) (d : Option ℚ),
       (bs, d) ∈ (directorySearch dist true radius search kota jenis sortBy
         nameLe page limit l).1 →
       d = some (round2 (dist bs)) ∧ round2 (dist bs) ≤ radius
       ∧ dist bs ≤ radius + 1/100)
  ∧ (∀ (dist : BankSampah → ℚ) (radius : ℚ) (limit : Nat)
       (l : List BankSampah) (bs : BankSampah) (d : ℚ),
       (bs, d) ∈ nearbySearch dist radius limit l →
       dist bs ≤ radius ∧ d = round2 (dist bs))
  ∧ (∀ (dist : BankSampah → ℚ) (radius : ℚ) (l : List BankSampah),
       (nearbySorted dist radius l).Pairwise (fun a b => a.2 ≤ b.2)) := by
  refine ⟨?_, ?_, ?_⟩
  · intro dist radius search kota jenis sortBy nameLe page limit l bs d hmem
    have hmem2 : (bs, d) ∈ ((dirSortLoc sortBy nameLe (dirLocStage dist radius
        (dirFiltered search kota jenis l))).map (fun p => (p.1, some p.2))) :=
      List.mem_of_mem_drop (List.mem_of_mem_take hmem)
    rw [List.mem_map] at hmem2
    obtain ⟨p, hp, heq⟩ := hmem2
    obtain ⟨pbs, pq⟩ := p
    injection heq with h1 h2
    subst h1
    subst h2
    rw [mem_dirSortLoc] at hp
    obtain ⟨hq, hle⟩ := mem_dirLocStage hp
    subst hq
    refine ⟨rfl, hle, ?_⟩
    have := le_round2_add (dist pbs)
    linarith
  · intro dist radius limit l bs d hmem
    unfold nearbySearch at hmem
    rw [List.mem_map] at hmem
    obtain ⟨p, hp, heq⟩ := hmem
    obtain ⟨pbs, pq⟩ := p
    injection heq with h1 h2
    subst h1
    subst h2
    have hp2 : (pbs, pq) ∈ nearbySorted dist radius l := List.mem_of_mem_take hp
    unfold nearbySorted at hp2
    rw [List.mem_mergeSort, List.mem_filter] at hp2
    obtain ⟨hm, hle⟩ := hp2
    rw [List.mem_map] at hm
    obtain ⟨bs0, hbs0, heq2⟩ := hm
    injection heq2 with h1 h2
    subst h1
    subst h2
    exact ⟨of_decide_eq_true hle, rfl⟩
  · intro dist radius l
    unfold nearbySorted
    have hs := @List.sorted_mergeSort _
      (fun a b : BankSampah × ℚ => decide (a.2 ≤ b.2))
      (fun a b c hab hbc => decide_eq_true
        (le_trans (of_decide_eq_true hab) (of_decide_eq_true hbc)))
      (fun a b => by
        rcases le_total a.2 b.2 with h | h <;> simp [h])
      (((l.filter (·.is_active)).map (fun bs => (bs, dist bs))).filter
        (fun p => p.2 ≤ radius))
    exact hs.imp (fun h => of_decide_eq_true h)

/-- C6 counterexample: a point whose true distance is 10.004 km from the
query.  With radius 10, GET / keeps it (its rounded distance is exactly
10.00), while the spec's pipeline — unrounded value feeding the radius
filter — excludes it; so the radius filter of the directory search does not
use the unrounded haversine value. -/
theorem rounded_filter_differs_from_spec :
    (directorySearch distX true 10 none none none .rating (fun _ _ => true)
       1 10 [bsSeed]).2 = 1
    ∧ (directorySearchSpec distX true 10 none none none .rating
       (fun _ _ => true) 1 10 [bsSeed]).2 = 0
    ∧ (10 : ℚ) < distX bsSeed
    ∧ round2 (distX bsSeed) = 10 := by
  refine ⟨?_, ?_, by norm_num [distX], ?_⟩
  · norm_num +decide [directorySearch, dirFiltered, dirSortLoc, dirLocStage,
      List.length_mergeSort, bsSeed, distX, round2, round_eq]
  · norm_num +decide [directorySearchSpec, dirFiltered, dirSortLoc,
      dirLocStageSpec, List.length_mergeSort, bsSeed, distX]
  · norm_num [distX, round2, round_eq]

/-- C6 witness: both pipeline facts at a concrete input — the nearby search
at radius 11 returns the point with its exact distance below the radius and
the display rounded, and the directory search page item carries the rounded
distance within tolerance. -/
theorem distance_rounding_discipline_witness :
    nearbySearch distX 11 5 [bsSeed] = [(bsSeed, 10)]
    ∧ (bsSeed, (10 : ℚ)) ∈ nearbySearch distX 11 5 [bsSeed]
    ∧ (distX bsSeed ≤ 11 ∧ (10 : ℚ) = round2 (distX bsSeed))
    ∧ (directorySearch distX true 10 none none none .rating (fun _ _ => true)
        1 10 [bsSeed]).1 = [(bsSeed, some 10)]
    ∧ (bsSeed, some (10 : ℚ)) ∈ (directorySearch distX true 10 none none none
        .rating (fun _ _ => true) 1 10 [bsSeed]).1
    ∧ (some (10 : ℚ) = some (round2 (distX bsSeed))
       ∧ round2 (distX bsSeed) ≤ 10 ∧ distX bsSeed ≤ 10 + 1/100) := by
  have hfilter : ((([bsSeed].filter (·.is_active)).map
      (fun bs => (bs, distX bs))).filter (fun p => p.2 ≤ 11))
      = [(bsSeed, 2501/250)] := by
    norm_num +decide [bsSeed, distX]
  have hnear : nearbySearch distX 11 5 [bsSeed] = [(bsSeed, 10)] := by
    unfold nearbySearch nearbySorted
    rw [hfilter, List.mergeSort_of_sorted (by simp)]
    norm_num [round2, round_eq]
  have hstage : dirLocStage distX 10 (dirFiltered none none none [bsSeed])
      = [(bsSeed, 10)] := by
    norm_num +decide [dirLocStage, dirFiltered, bsSeed, distX, round2,
      round_eq]
  have hdir : (directorySearch distX true 10 none none none .rating
      (fun _ _ => true) 1 10 [bsSeed]).1 = [(bsSeed, some 10)] := by
    have hshape : (directorySearch distX true 10 none none none .rating
        (fun _ _ => true) 1 10 [bsSeed]).1
        = (((dirSortLoc .rating (fun _ _ => true) (dirLocStage distX 10
            (dirFiltered none none none [bsSeed]))).map
            (fun p => (p.1, some p.2))).drop 0).take 10 := rfl
    have hsort : dirSortLoc .rating (fun _ _ => true) [(bsSeed, (10 : ℚ))]
        = [(bsSeed, 10)] := List.mergeSort_of_sorted (by simp)
    rw [hshape, hstage, hsort]
    rfl
  have hmem1 : (bsSeed, (10 : ℚ)) ∈ nearbySearch distX 11 5 [bsSeed] := by
    rw [hnear]
    exact List.mem_singleton.mpr rfl
  have hmem2 : (bsSeed, some (10 : ℚ)) ∈ (directorySearch distX true 10 none
      none none .rating (fun _ _ => true) 1 10 [bsSeed]).1 := by
    rw [hdir]
    exact List.mem_singleton.mpr rfl
  exact ⟨hnear, hmem1,
    (distance_rounding_discipline.2.1 distX 11 5 [bsSeed] bsSeed 10 hmem1).imp
      id id,
    hdir, hmem2,
    distance_rounding_discipline.1 distX 10 none none none .rating
      (fun _ _ => true) 1 10 [bsSeed] bsSeed (some 10) hmem2⟩

/-! ## C7 — leaderboard ranking -/

/-- C7: the leaderboard sorts the active users' stats descending by the
selected metric with the stable JS sort (ties keep input-collection order —
formally, any pair in input order with equal metrics is still a sublist of
the sorted list), assigns 1-based ranks by position, and the requester's own
rank is located on the **full** sorted list, independent of the `limit`
slice. -/
theorem leaderboard_ranking_contract :
    (∀ (t : LeaderboardType) (users : List User) (subs : List Submission),
       (leaderboardSorted t users subs).Pairwise
         (fun a b => metricOf t b ≤ metricOf t a))
  ∧ (∀ (t : LeaderboardType) (users : List User) (subs : List Submission),
       (leaderboardSorted t users subs).Perm (leaderboardStats users subs))
  ∧ (∀ (t : LeaderboardType) (users : List User) (subs : List Submission)
       (a b : UserStats), metricOf t a = metricOf t b →
       List.Sublist [a, b] (leaderboardStats users subs) →
       List.Sublist [a, b] (leaderboardSorted t users subs))
  ∧ (∀ (t : LeaderboardType) (limit : Nat) (users : List User)
       (subs : List Submission) (i : Nat)
       (h : i < (leaderboardTop t limit users subs).length),
       ((leaderboardTop t limit users subs)[i]).2 = i + 1
       ∧ ∃ hs : i < (leaderboardSorted t users subs).length,
           ((leaderboardTop t limit users subs)[i]).1
             = (leaderboardSorted t users subs)[i])
  ∧ (∀ (t : LeaderboardType) (users : List User) (subs : List Submission)
       (uid : Nat), (∃ s ∈ leaderboardSorted t users subs, s.id = uid) →
       ∃ (j : Nat) (hs : j < (leaderboardSorted t users subs).length),
         currentUserRank t users subs (some uid)
           = some ((leaderboardSorted t users subs)[j], j + 1)
         ∧ ((leaderboardSorted t users subs)[j]).id = uid) := by
  have htrans : ∀ (t : LeaderboardType) (a b c : UserStats),
      decide (metricOf t b ≤ metricOf t a) →
      decide (metricOf t c ≤ metricOf t b) →
      decide (metricOf t c ≤ metricOf t a) :=
    fun t a b c hab hbc => decide_eq_true
      (le_trans (of_decide_eq_true hbc) (of_decide_eq_true hab))
  have htotal : ∀ (t : LeaderboardType) (a b : UserStats),
      (decide (metricOf t b ≤ metricOf t a)
        || decide (metricOf t a ≤ metricOf t b)) = true := by
    intro t a b
    rcases le_total (metricOf t b) (metricOf t a) with h | h <;> simp [h]
  refine ⟨?_, ?_, ?_, ?_, ?_⟩
  · intro t users subs
    exact (List.sorted_mergeSort (htrans t) (htotal t)
      (leaderboardStats users subs)).imp (fun h => of_decide_eq_true h)
  · intro t users subs
    exact List.mergeSort_perm _ _
  · intro t users subs a b hm hsub
    exact List.pair_sublist_mergeSort (htrans t) (htotal t)
      (decide_eq_true (le_of_eq hm.symm)) hsub
  · intro t limit users subs i h
    constructor
    · simp [leaderboardTop, List.getElem_enum]
    · have hs : i < (leaderboardSorted t users subs).length := by
        have := h
        simp [leaderboardTop, List.length_take, List.enum_length] at this
        omega
      exact ⟨hs, by simp [leaderboardTop, List.getElem_enum, List.getElem_take]⟩
  · intro t users subs uid hex
    obtain ⟨s, hsmem, hsid⟩ := hex
    obtain ⟨i, hi, hieq⟩ := List.mem_iff_getElem.mp hsmem
    have hsome : (((leaderboardSorted t users subs).enum).find?
        (fun p => p.2.id = uid)).isSome = true := by
      rw [List.find?_isSome]
      refine ⟨((leaderboardSorted t users subs).enum).get
        ⟨i, by simpa [List.enum_length] using hi⟩, List.get_mem _ _ _, ?_⟩
      simp [List.getElem_enum, hieq, hsid]
    obtain ⟨pr, hpr⟩ := Option.isSome_iff_exists.mp hsome
    have hprp := List.find?_some hpr
    have hprmem := List.mem_of_find?_eq_some hpr
    obtain ⟨j, hj, hjeq⟩ := List.mem_iff_getElem.mp hprmem
    rw [List.getElem_enum] at hjeq
    have hj2 : j < (leaderboardSorted t users subs).length := by
      simpa [List.enum_length] using hj
    refine ⟨j, hj2, ?_, ?_⟩
    · show Option.map (fun p => (p.2, p.1 + 1))
        (((leaderboardSorted t users subs).enum).find?
          (fun p => p.2.id = uid))
        = some ((leaderboardSorted t users subs)[j], j + 1)
      rw [hpr, ← hjeq]
      rfl
    · rw [← hjeq] at hprp
      simpa using hprp

/-- C7 witness: users 3/1/2 where users 1 and 2 tie at 5 kg and the
requesting user 2 sits at rank 3, outside a top-1 leaderboard: the tie keeps
input order, the top slice has one entry, and `current_user_rank` still
reports (user 2, rank 3). -/
theorem leaderboard_ranking_contract_witness :
    leaderboardStats usersFix subsFix = statsFix
    ∧ leaderboardSorted .weight usersFix subsFix = statsFix
    ∧ metricOf .weight (statsFix.get ⟨1, by decide⟩)
        = metricOf .weight (statsFix.get ⟨2, by decide⟩)
    ∧ List.Sublist [statsFix.get ⟨1, by decide⟩, statsFix.get ⟨2, by decide⟩]
        (leaderboardSorted .weight usersFix subsFix)
    ∧ (leaderboardTop .weight 1 usersFix subsFix).length = 1
    ∧ currentUserRank .weight usersFix subsFix (some 2)
        = some (statsFix.get ⟨2, by decide⟩, 3) := by
  have hstats : leaderboardStats usersFix subsFix = statsFix := by
    norm_num +decide [leaderboardStats, activeUsers, userStatsOf, usersFix,
      subsFix, uFix, userA, subFor, subBotol, addrA, statsFix]
  have hsorted : leaderboardSorted .weight usersFix subsFix = statsFix := by
    unfold leaderboardSorted
    rw [hstats]
    exact List.mergeSort_of_sorted (by
      norm_num [statsFix, metricOf, List.pairwise_cons])
  have hm : metricOf .weight (statsFix.get ⟨1, by decide⟩)
      = metricOf .weight (statsFix.get ⟨2, by decide⟩) := rfl
  have hsub : List.Sublist
      [statsFix.get ⟨1, by decide⟩, statsFix.get ⟨2, by decide⟩] statsFix :=
    List.Sublist.cons _ (List.Sublist.refl _)
  have hrank : currentUserRank .weight usersFix subsFix (some 2)
      = some (statsFix.get ⟨2, by decide⟩, 3) := by
    show Option.map (fun p => (p.2, p.1 + 1))
      (((leaderboardSorted .weight usersFix subsFix).enum).find?
        (fun p => p.2.id = 2)) = _
    rw [hsorted]
    norm_num [statsFix, List.find?, List.enum, List.enumFrom]
  refine ⟨hstats, hsorted, hm, ?_, ?_, hrank⟩
  · refine leaderboard_ranking_contract.2.2.1 .weight usersFix subsFix _ _ hm ?_
    rw [hstats]
    exact hsub
  · rw [show (leaderboardTop .weight 1 usersFix subsFix).length
      = min 1 (leaderboardSorted .weight usersFix subsFix).length by
        simp [leaderboardTop, List.enum_length], hsorted]
    decide
